import Mathlib

/-!
# gettyio_golang: a CRUD service over one MongoDB collection

Shallow embedding of `src/main.go` (entity `Customer`, routes `/customer`) and of
`src/go_gettyio.go` (entity `Cliente`, routes `/cliente`).

The program is Go code on top of two libraries, the web framework gin and the
MongoDB driver mgo.v2 (with its bson package).  The parts of the libraries the
program calls are modelled first (namespaces `bson`, `mgo`, `gin`), then the code
of each file is transcribed function by function (namespaces `Main` and
`Gettyio`).

State is passed explicitly:
* the database server (the documents of each collection, whether it answers);
* the gin context of one request (the `Keys` map, the outcome of binding the
  request body, the responses written with `c.JSON`, the abort flag);
* a trace of the driver dials and data-access calls made, kept for stating
  which calls happen.

A Go panic (nil pointer dereference) is an explicit result of a run.
-/

set_option autoImplicit false

/-! ## bson: object identifiers -/

namespace bson

/-- Models `bson.ObjectId`, declared in Go as `type ObjectId string`.  A Go string
is a sequence of bytes, of any values (the 12 bytes of an identifier are in
general not valid UTF-8), so an identifier is a list of bytes.  The zero value,
the empty string, is the absent identifier (the struct tag `_id,omitempty`
leaves it out of the marshalled document). -/
abbrev ObjectId := List UInt8

/-- Models `ObjectId.Valid`, `len(id) == 12`: an identifier is valid when it is
exactly 12 bytes long. -/
def ObjectId.Valid (id : ObjectId) : Bool := id.length == 12

/-- What the struct tags of an entity type tell the bson marshaller about the
`_id` field: how to read it and how a document looks once the field is set. -/
class Document (α : Type) where
  /-- The value of the field tagged `bson:"_id,omitempty"`. -/
  id : α → ObjectId
  /-- The document with its `_id` field set to the given identifier. -/
  setId : ObjectId → α → α

end bson

/-! ## mgo: the driver and the server behind it -/

namespace mgo

open bson

/-- The errors a driver call can return. -/
inductive Error where
  /-- No server could be reached (dial failure, or a round trip that fails). -/
  | unreachable
  /-- The error `mgo.ErrNotFound`: in safe mode (the default of a dialled session)
  `Update` and `Remove` return it when no document matches the selector. -/
  | ErrNotFound
  /-- The server rejects an insert whose `_id` is already in the collection. -/
  | duplicateKey
  /-- Marshalling an `ObjectId` that is not 12 bytes long fails. -/
  | invalidObjectId
  /-- The server rejects an update that would change the `_id` of a document. -/
  | immutableId
  deriving DecidableEq, Repr

/-- Models `mgo.DialInfo`, with the fields the program sets. -/
structure DialInfo where
  Addrs : List String
  Timeout : Nat
  Database : String
  deriving DecidableEq, Repr

/-- Models `*mgo.Session` as far as the program can observe it: the addresses it was
dialled with. -/
structure Session where
  Addrs : List String
  deriving DecidableEq, Repr

/-- Models `Session.Clone`: a session on the same servers.  (`Session.Close`, deferred
by every data-access method, releases the clone and changes nothing that is
modelled here.) -/
def Session.Clone (s : Session) : Session := s

/-- The database server: the documents of every collection, keyed by the full
collection name `database.collection`; whether a round trip to it succeeds;
and the identifier its generator gives to the next document stored without
one. -/
structure Server (α : Type) where
  colls : List (String × List α)
  up : Bool
  newId : ObjectId
  deriving DecidableEq, Repr

/-- The documents of a collection; a collection that was never written is
empty. -/
def Server.coll {α : Type} (srv : Server α) (ns : String) : List α :=
  (srv.colls.lookup ns).getD []

/-- Replace the documents of one collection. -/
def Server.setColl {α : Type} (srv : Server α) (ns : String) (docs : List α) : Server α :=
  { srv with colls := (ns, docs) :: srv.colls.filter (fun p => p.1 != ns) }

/-- Models `session.DB(db).C(coll)`: the full name of the collection. -/
def fullName (db coll : String) : String := db ++ "." ++ coll

/-- Replace the first element satisfying `p` by its image under `f`. -/
def modifyFirst {α : Type} (p : α → Bool) (f : α → α) : List α → List α
  | [] => []
  | d :: ds => if p d then f d :: ds else d :: modifyFirst p f ds

/-- Remove the first element satisfying `p`. -/
def removeFirst {α : Type} (p : α → Bool) : List α → List α
  | [] => []
  | d :: ds => if p d then ds else d :: removeFirst p ds

/-- Models `Collection.Find(bson.M{}).All(&result)`: every document of the collection,
or the error of the round trip (the result slice is then left as it was,
nil). -/
def FindAll {α : Type} (srv : Server α) (ns : String) : List α × Option Error :=
  if !srv.up then ([], some Error.unreachable)
  else (srv.coll ns, none)

/-- Models `Collection.Insert(doc)`.  The document is marshalled and sent; the driver
never writes to the value it was given.  A document without `_id` gets one
from the server; one with an `_id` already present is rejected. -/
def Insert {α : Type} [Document α] (srv : Server α) (ns : String) (doc : α) :
    Server α × Option Error :=
  if !srv.up then (srv, some Error.unreachable)
  else if Document.id doc = [] then
    (srv.setColl ns (srv.coll ns ++ [Document.setId srv.newId doc]), none)
  else if !ObjectId.Valid (Document.id doc) then (srv, some Error.invalidObjectId)
  else if (srv.coll ns).any (fun d => Document.id d == Document.id doc) then
    (srv, some Error.duplicateKey)
  else (srv.setColl ns (srv.coll ns ++ [doc]), none)

/-- Models `Collection.UpdateId(id, bson.M{"$set": doc})`, that is
`Update(bson.M{"_id": id}, ...)`: the first document whose `_id` is `id` gets
every field of `doc`; `ErrNotFound` when there is none. -/
def UpdateId {α : Type} [Document α] (srv : Server α) (ns : String) (id : ObjectId)
    (doc : α) : Server α × Option Error :=
  if !srv.up then (srv, some Error.unreachable)
  else if !ObjectId.Valid id then (srv, some Error.invalidObjectId)
  else if !(Document.id doc = [] || ObjectId.Valid (Document.id doc)) then
    (srv, some Error.invalidObjectId)
  else if !(srv.coll ns).any (fun d => Document.id d == id) then
    (srv, some Error.ErrNotFound)
  else if !(Document.id doc = [] || Document.id doc == id) then
    (srv, some Error.immutableId)
  else
    (srv.setColl ns
      (modifyFirst (fun d => Document.id d == id) (fun _ => Document.setId id doc)
        (srv.coll ns)), none)

/-- Models `Collection.RemoveId(id)`, that is `Remove(bson.M{"_id": id})`: the first
document whose `_id` is `id` is removed; `ErrNotFound` when there is none. -/
def RemoveId {α : Type} [Document α] (srv : Server α) (ns : String) (id : ObjectId) :
    Server α × Option Error :=
  if !srv.up then (srv, some Error.unreachable)
  else if !ObjectId.Valid id then (srv, some Error.invalidObjectId)
  else if !(srv.coll ns).any (fun d => Document.id d == id) then
    (srv, some Error.ErrNotFound)
  else (srv.setColl ns (removeFirst (fun d => Document.id d == id) (srv.coll ns)), none)

end mgo

/-! ## The handle type, declared identically in both files (lines 23-32) -/

/-- Models `type MongoDB struct`.  Durations are in nanoseconds; `Info` and `Session`
are pointers and may be nil. -/
structure MongoDB where
  Host : String
  Port : String
  Addrs : String
  Database : String
  EventTTLAfterEnd : Nat
  StdEventTTL : Nat
  Info : Option mgo.DialInfo
  Session : Option mgo.Session
  deriving DecidableEq, Repr

/-- The zero value `MongoDB{}`. -/
def MongoDB.zero : MongoDB :=
  { Host := "", Port := "", Addrs := "", Database := "", EventTTLAfterEnd := 0,
    StdEventTTL := 0, Info := none, Session := none }

/-- A Go panic. -/
inductive Panic where
  /-- A runtime error: invalid memory address or nil pointer dereference. -/
  | nilDereference
  deriving DecidableEq, Repr

/-- The dynamic values found in `c.Keys` (Go `interface{}`): a `*MongoDB`,
possibly the nil pointer, or a value of another type. -/
inductive Any where
  | ptrMongoDB (p : Option MongoDB)
  | other (v : String)
  deriving DecidableEq, Repr

/-- The comma-ok type assertion `v.(*MongoDB)` on the result of a map lookup:
the pointer and true when the key is present with a value of that type, the nil
pointer and false otherwise. -/
def Any.assertMongoDB : Option Any → Option MongoDB × Bool
  | some (Any.ptrMongoDB p) => (p, true)
  | _ => (none, false)

/-! ## gin: the request context -/

namespace gin

/-- The values the handlers put in a `gin.H`. -/
inductive Value (α : Type) where
  | null
  | string (s : String)
  | record (a : α)
  | records (l : List α)
  deriving DecidableEq, Repr

/-- Models `gin.H`, a `map[string]interface{}`, as the list of its entries. -/
abbrev H (α : Type) := List (String × Value α)

/-- One call of `c.JSON(code, obj)`. -/
structure Response (α : Type) where
  code : Nat
  obj : H α
  deriving DecidableEq, Repr

/-- Models `*gin.Context` for one request.  `request` is what binding the request body
to the entity type yields, `none` when the body does not bind; `written` are the
calls of `c.JSON` so far, in order; `aborted` is set by `c.Abort`. -/
structure Context (α : Type) where
  Keys : List (String × Any)
  request : Option α
  written : List (Response α)
  aborted : Bool
  deriving DecidableEq, Repr

/-- Models `c.JSON(code, obj)`. -/
def Context.JSON {α : Type} (c : Context α) (code : Nat) (obj : H α) : Context α :=
  { c with written := c.written ++ [⟨code, obj⟩] }

/-- Models `c.Bind(&req)`: the bound record, or `none` for a binding error. -/
def Context.Bind {α : Type} (c : Context α) : Option α := c.request

/-- Models `c.Set(key, value)`. -/
def Context.Set {α : Type} (c : Context α) (key : String) (value : Any) : Context α :=
  { c with Keys := (key, value) :: c.Keys.filter (fun p => p.1 != key) }

/-- Models `c.Abort()`: the handlers that remain in the chain are not called. -/
def Context.Abort {α : Type} (c : Context α) : Context α :=
  { c with aborted := true }

end gin

/-! ## The world of one request -/

/-- Everything outside the handler that one request touches: the outcome of the
two ways of dialling, the database server, and the trace of dials and
data-access calls. -/
structure World (α : Type) where
  dialWithInfoOk : Bool
  dialOk : Bool
  server : mgo.Server α
  trace : List String
  deriving DecidableEq, Repr

/-- Append an entry to the trace. -/
def World.log {α : Type} (w : World α) (e : String) : World α :=
  { w with trace := w.trace ++ [e] }

/-- The result of running a handler: the context and world it leaves, and the
panic that ended it if one did. -/
structure Run (α : Type) where
  c : gin.Context α
  w : World α
  panic : Option Panic
  deriving DecidableEq, Repr

/-- A `gin.HandlerFunc`. -/
abbrev Handler (α : Type) := gin.Context α → World α → Run α

/-! ## Session set-up and middleware, identical in both files (lines 78-87, 207-217) -/

/-- Models `mgo.DialWithInfo(info)`. -/
def mgo.DialWithInfo {α : Type} (w : World α) (info : mgo.DialInfo) :
    World α × Option mgo.Session × Option mgo.Error :=
  if w.dialWithInfoOk then (w.log "mgo.DialWithInfo", some ⟨info.Addrs⟩, none)
  else (w.log "mgo.DialWithInfo", none, some mgo.Error.unreachable)

/-- Models `mgo.Dial(url)`. -/
def mgo.Dial {α : Type} (w : World α) (url : String) :
    World α × Option mgo.Session × Option mgo.Error :=
  if w.dialOk then (w.log "mgo.Dial", some ⟨[url]⟩, none)
  else (w.log "mgo.Dial", none, some mgo.Error.unreachable)

/-- Models `func (mongo *MongoDB) SetSession() (err error)`.  Returns the handle as the
method leaves it.  `mgo.DialWithInfo` dereferences `mongo.Info`. -/
def MongoDB.SetSession {α : Type} (mongo : MongoDB) (w : World α) :
    Except Panic (MongoDB × World α × Option mgo.Error) :=
  match mongo.Info with
  | none => Except.error Panic.nilDereference
  | some info =>
    let (w, session, err) := mgo.DialWithInfo w info
    let mongo := { mongo with Session := session }
    if err ≠ none then
      let (w, session, err) := mgo.Dial w mongo.Host
      let mongo := { mongo with Session := session }
      if err ≠ none then
        Except.ok (mongo, w, err)
      else
        Except.ok (mongo, w, err)
    else
      Except.ok (mongo, w, err)

/-- Models `func MiddleDB(mongo *MongoDB) gin.HandlerFunc`.  `next` is the rest of the
handler chain, which `c.Next()` runs. -/
def MiddleDB {α : Type} (mongo : MongoDB) (next : Handler α) : Handler α :=
  fun c w =>
    match mongo.SetSession w with
    | Except.error p => ⟨c, w, some p⟩
    | Except.ok (mongo, w, err) =>
      if err ≠ none then
        ⟨c.Abort, w, none⟩
      else
        next (c.Set "mongo" (Any.ptrMongoDB (some mongo))) w

/-- A registered route: HTTP method, path and handler. -/
structure gin.Route (α : Type) where
  method : String
  path : String
  handler : Handler α

/-- Models `*gin.Engine` as `SetupRouter` builds it: the names of the library
middleware installed, the handle given to `MiddleDB`, and the routes. -/
structure gin.Engine (α : Type) where
  middleware : List String
  mongo : MongoDB
  routes : List (gin.Route α)

/-- The handler chain the engine runs for a request: `MiddleDB` in front of the
handler registered for the method and path, if there is one.  (The logging and
recovery middleware come from the library and are not modelled.) -/
def gin.Engine.chain {α : Type} (e : gin.Engine α) (method path : String) :
    Option (Handler α) :=
  (e.routes.find? (fun r => r.method == method && r.path == path)).map
    (fun r => MiddleDB e.mongo r.handler)

/-! ## src/main.go -/

namespace Main

open gin

/-- Embeds `type Customer struct` (lines 15-19). -/
structure Customer where
  Id : bson.ObjectId
  Name : String
  Age : Int
  deriving DecidableEq, Repr

/-- The struct tag `bson:"_id,omitempty"` is on the field `Id`. -/
instance : bson.Document Customer where
  id c := c.Id
  setId i c := { c with Id := i }

/-- Embeds `func (mongo *MongoDB) SetDefault()` (lines 36-47). -/
def SetDefault (mongo : MongoDB) : MongoDB :=
  let mongo := { mongo with Host := "localhost" }
  let mongo := { mongo with Addrs := "localhost:27017" }
  let mongo := { mongo with Database := "gettyio" }
  let mongo := { mongo with EventTTLAfterEnd := 1 * 1000000000 }
  let mongo := { mongo with StdEventTTL := 20 * 60000000000 }
  let info : mgo.DialInfo :=
    { Addrs := [mongo.Addrs], Timeout := 60 * 1000000000, Database := mongo.Database }
  { mongo with Info := some info }

/-- Embeds `func (mongo *MongoDB) GetCustomer() (customers []Customer, err error)`
(lines 93-99).  `mongo.Session.Clone()` dereferences the receiver and then the
session. -/
def GetCustomer (mongo : Option MongoDB) (srv : mgo.Server Customer) :
    Except Panic (List Customer × Option mgo.Error) :=
  match mongo with
  | none => Except.error Panic.nilDereference
  | some mongo =>
    match mongo.Session with
    | none => Except.error Panic.nilDereference
    | some s =>
      let _session := s.Clone
      let (customers, err) := mgo.FindAll srv (mgo.fullName mongo.Database "Customer")
      Except.ok (customers, err)

/-- Embeds `func (mongo *MongoDB) PostCustomer(customer *Customer) (err error)`
(lines 103-109).  Returns the server after the call and the error. -/
def PostCustomer (mongo : Option MongoDB) (srv : mgo.Server Customer) (customer : Customer) :
    Except Panic (mgo.Server Customer × Option mgo.Error) :=
  match mongo with
  | none => Except.error Panic.nilDereference
  | some mongo =>
    match mongo.Session with
    | none => Except.error Panic.nilDereference
    | some s =>
      let _session := s.Clone
      let (srv, err) := mgo.Insert srv (mgo.fullName mongo.Database "Customer") customer
      Except.ok (srv, err)

/-- Embeds `func (mongo *MongoDB) PutCustomer(customer *Customer) (err error)`
(lines 113-119). -/
def PutCustomer (mongo : Option MongoDB) (srv : mgo.Server Customer) (customer : Customer) :
    Except Panic (mgo.Server Customer × Option mgo.Error) :=
  match mongo with
  | none => Except.error Panic.nilDereference
  | some mongo =>
    match mongo.Session with
    | none => Except.error Panic.nilDereference
    | some s =>
      let _session := s.Clone
      let (srv, err) :=
        mgo.UpdateId srv (mgo.fullName mongo.Database "Customer") customer.Id customer
      Except.ok (srv, err)

/-- Embeds `func (mongo *MongoDB) DeleteCustomer(customer *Customer) (err error)`
(lines 123-129). -/
def DeleteCustomer (mongo : Option MongoDB) (srv : mgo.Server Customer) (customer : Customer) :
    Except Panic (mgo.Server Customer × Option mgo.Error) :=
  match mongo with
  | none => Except.error Panic.nilDereference
  | some mongo =>
    match mongo.Session with
    | none => Except.error Panic.nilDereference
    | some s =>
      let _session := s.Clone
      let (srv, err) := mgo.RemoveId srv (mgo.fullName mongo.Database "Customer") customer.Id
      Except.ok (srv, err)

/-- Embeds `func getCustomer(c *gin.Context)` (lines 133-146). -/
def getCustomer : Handler Customer := fun c w =>
  let (mongo, ok) := Any.assertMongoDB (c.Keys.lookup "mongo")
  let c := if !ok then
      c.JSON 400 [("message", Value.string "can't reach db"), ("body", Value.null)]
    else c
  let w := w.log "GetCustomer"
  match GetCustomer mongo w.server with
  | Except.error p => ⟨c, w, some p⟩
  | Except.ok (data, err) =>
    if err ≠ none then
      ⟨c.JSON 400 [("message", Value.string "can't get data from database"),
        ("body", Value.null)], w, none⟩
    else
      ⟨c.JSON 200 [("message", Value.string "get data sucess"),
        ("body", Value.records data)], w, none⟩

/-- Embeds `func postCustomer(c *gin.Context)` (lines 148-165). -/
def postCustomer : Handler Customer := fun c w =>
  let (mongo, ok) := Any.assertMongoDB (c.Keys.lookup "mongo")
  let c := if !ok then
      c.JSON 400 [("message", Value.string "can't connect to db"), ("body", Value.null)]
    else c
  match c.Bind with
  | none =>
    ⟨c.JSON 400 [("message", Value.string "Incorrect data"), ("body", Value.null)], w, none⟩
  | some req =>
    let w := w.log "PostCustomer"
    match PostCustomer mongo w.server req with
    | Except.error p => ⟨c, w, some p⟩
    | Except.ok (srv, err) =>
      let w := { w with server := srv }
      let c := if err ≠ none then
          c.JSON 400 [("message", Value.string "error post to db"), ("body", Value.null)]
        else c
      ⟨c.JSON 200 [("message", Value.string "post data sucess"), ("body", Value.record req)],
        w, none⟩

/-- Embeds `func putCustomer(c *gin.Context)` (lines 167-184). -/
def putCustomer : Handler Customer := fun c w =>
  let (mongo, ok) := Any.assertMongoDB (c.Keys.lookup "mongo")
  let c := if !ok then
      c.JSON 400 [("message", Value.string "can't connect to db"), ("body", Value.null)]
    else c
  match c.Bind with
  | none =>
    ⟨c.JSON 400 [("message", Value.string "Incorrect data"), ("body", Value.null)], w, none⟩
  | some req =>
    let w := w.log "PutCustomer"
    match PutCustomer mongo w.server req with
    | Except.error p => ⟨c, w, some p⟩
    | Except.ok (srv, err) =>
      let w := { w with server := srv }
      let c := if err ≠ none then
          c.JSON 400 [("message", Value.string "error put to db"), ("body", Value.null)]
        else c
      ⟨c.JSON 200 [("message", Value.string "put data sucess"), ("body", Value.record req)],
        w, none⟩

/-- Embeds `func deleteCustomer(c *gin.Context)` (lines 186-203). -/
def deleteCustomer : Handler Customer := fun c w =>
  let (mongo, ok) := Any.assertMongoDB (c.Keys.lookup "mongo")
  let c := if !ok then
      c.JSON 400 [("message", Value.string "can't connect to db"), ("body", Value.null)]
    else c
  match c.Bind with
  | none =>
    ⟨c.JSON 400 [("message", Value.string "Incorrect data"), ("body", Value.null)], w, none⟩
  | some req =>
    let w := w.log "DeleteCustomer"
    match DeleteCustomer mongo w.server req with
    | Except.error p => ⟨c, w, some p⟩
    | Except.ok (srv, err) =>
      let w := { w with server := srv }
      let c := if err ≠ none then
          c.JSON 400 [("message", Value.string "error delete to db"), ("body", Value.null)]
        else c
      ⟨c.JSON 200 [("message", Value.string "delete data sucess"), ("body", Value.record req)],
        w, none⟩

/-- Embeds `func SetupRouter() *gin.Engine` (lines 221-235). -/
def SetupRouter : gin.Engine Customer :=
  let mongo := MongoDB.zero
  let mongo := SetDefault mongo
  { middleware := ["Logger", "Recovery", "Logger", "Recovery", "MiddleDB"],
    mongo := mongo,
    routes := [⟨"GET", "/customer", getCustomer⟩, ⟨"POST", "/customer", postCustomer⟩,
      ⟨"PUT", "/customer", putCustomer⟩, ⟨"DELETE", "/customer", deleteCustomer⟩] }

end Main

/-! ## src/go_gettyio.go -/

namespace Gettyio

open gin

/-- Embeds `type Cliente struct` (lines 15-19). -/
structure Cliente where
  Id : bson.ObjectId
  Name : String
  Idade : Int
  deriving DecidableEq, Repr

/-- The struct tag `bson:"_id,omitempty"` is on the field `Id`. -/
instance : bson.Document Cliente where
  id c := c.Id
  setId i c := { c with Id := i }

/-- Embeds `func (mongo *MongoDB) SetDefault()` (lines 36-47). -/
def SetDefault (mongo : MongoDB) : MongoDB :=
  let mongo := { mongo with Host := "localhost" }
  let mongo := { mongo with Addrs := "localhost:27017" }
  let mongo := { mongo with Database := "gettyio_01" }
  let mongo := { mongo with EventTTLAfterEnd := 1 * 1000000000 }
  let mongo := { mongo with StdEventTTL := 20 * 60000000000 }
  let info : mgo.DialInfo :=
    { Addrs := [mongo.Addrs], Timeout := 60 * 1000000000, Database := mongo.Database }
  { mongo with Info := some info }

/-- Embeds `func (mongo *MongoDB) GetCliente() (clientes []Cliente, err error)`
(lines 93-99).  `mongo.Session.Clone()` dereferences the receiver and then the
session. -/
def GetCliente (mongo : Option MongoDB) (srv : mgo.Server Cliente) :
    Except Panic (List Cliente × Option mgo.Error) :=
  match mongo with
  | none => Except.error Panic.nilDereference
  | some mongo =>
    match mongo.Session with
    | none => Except.error Panic.nilDereference
    | some s =>
      let _session := s.Clone
      let (clientes, err) := mgo.FindAll srv (mgo.fullName mongo.Database "Cliente")
      Except.ok (clientes, err)

/-- Embeds `func (mongo *MongoDB) PostCliente(cliente *Cliente) (err error)`
(lines 103-109).  Returns the server after the call and the error. -/
def PostCliente (mongo : Option MongoDB) (srv : mgo.Server Cliente) (cliente : Cliente) :
    Except Panic (mgo.Server Cliente × Option mgo.Error) :=
  match mongo with
  | none => Except.error Panic.nilDereference
  | some mongo =>
    match mongo.Session with
    | none => Except.error Panic.nilDereference
    | some s =>
      let _session := s.Clone
      let (srv, err) := mgo.Insert srv (mgo.fullName mongo.Database "Cliente") cliente
      Except.ok (srv, err)

/-- Embeds `func (mongo *MongoDB) PutCliente(cliente *Cliente) (err error)`
(lines 113-119). -/
def PutCliente (mongo : Option MongoDB) (srv : mgo.Server Cliente) (cliente : Cliente) :
    Except Panic (mgo.Server Cliente × Option mgo.Error) :=
  match mongo with
  | none => Except.error Panic.nilDereference
  | some mongo =>
    match mongo.Session with
    | none => Except.error Panic.nilDereference
    | some s =>
      let _session := s.Clone
      let (srv, err) :=
        mgo.UpdateId srv (mgo.fullName mongo.Database "Cliente") cliente.Id cliente
      Except.ok (srv, err)

/-- Embeds `func (mongo *MongoDB) DeleteCliente(cliente *Cliente) (err error)`
(lines 123-129). -/
def DeleteCliente (mongo : Option MongoDB) (srv : mgo.Server Cliente) (cliente : Cliente) :
    Except Panic (mgo.Server Cliente × Option mgo.Error) :=
  match mongo with
  | none => Except.error Panic.nilDereference
  | some mongo =>
    match mongo.Session with
    | none => Except.error Panic.nilDereference
    | some s =>
      let _session := s.Clone
      let (srv, err) := mgo.RemoveId srv (mgo.fullName mongo.Database "Cliente") cliente.Id
      Except.ok (srv, err)

/-- Embeds `func getCliente(c *gin.Context)` (lines 133-146). -/
def getCliente : Handler Cliente := fun c w =>
  let (mongo, ok) := Any.assertMongoDB (c.Keys.lookup "mongo")
  let c := if !ok then
      c.JSON 400 [("message", Value.string "can't reach db"), ("body", Value.null)]
    else c
  let w := w.log "GetCliente"
  match GetCliente mongo w.server with
  | Except.error p => ⟨c, w, some p⟩
  | Except.ok (data, err) =>
    if err ≠ none then
      ⟨c.JSON 400 [("message", Value.string "can't get data from database"),
        ("body", Value.null)], w, none⟩
    else
      ⟨c.JSON 200 [("message", Value.string "get data sucess"),
        ("body", Value.records data)], w, none⟩

/-- Embeds `func postCliente(c *gin.Context)` (lines 148-165). -/
def postCliente : Handler Cliente := fun c w =>
  let (mongo, ok) := Any.assertMongoDB (c.Keys.lookup "mongo")
  let c := if !ok then
      c.JSON 400 [("message", Value.string "can't connect to db"), ("body", Value.null)]
    else c
  match c.Bind with
  | none =>
    ⟨c.JSON 400 [("message", Value.string "Incorrect data"), ("body", Value.null)], w, none⟩
  | some req =>
    let w := w.log "PostCliente"
    match PostCliente mongo w.server req with
    | Except.error p => ⟨c, w, some p⟩
    | Except.ok (srv, err) =>
      let w := { w with server := srv }
      let c := if err ≠ none then
          c.JSON 400 [("message", Value.string "error post to db"), ("body", Value.null)]
        else c
      ⟨c.JSON 200 [("message", Value.string "post data sucess"), ("body", Value.record req)],
        w, none⟩

/-- Embeds `func putCliente(c *gin.Context)` (lines 167-184). -/
def putCliente : Handler Cliente := fun c w =>
  let (mongo, ok) := Any.assertMongoDB (c.Keys.lookup "mongo")
  let c := if !ok then
      c.JSON 400 [("message", Value.string "can't connect to db"), ("body", Value.null)]
    else c
  match c.Bind with
  | none =>
    ⟨c.JSON 400 [("message", Value.string "Incorrect data"), ("body", Value.null)], w, none⟩
  | some req =>
    let w := w.log "PutCliente"
    match PutCliente mongo w.server req with
    | Except.error p => ⟨c, w, some p⟩
    | Except.ok (srv, err) =>
      let w := { w with server := srv }
      let c := if err ≠ none then
          c.JSON 400 [("message", Value.string "error put to db"), ("body", Value.null)]
        else c
      ⟨c.JSON 200 [("message", Value.string "put data sucess"), ("body", Value.record req)],
        w, none⟩

/-- Embeds `func deleteCliente(c *gin.Context)` (lines 186-203). -/
def deleteCliente : Handler Cliente := fun c w =>
  let (mongo, ok) := Any.assertMongoDB (c.Keys.lookup "mongo")
  let c := if !ok then
      c.JSON 400 [("message", Value.string "can't connect to db"), ("body", Value.null)]
    else c
  match c.Bind with
  | none =>
    ⟨c.JSON 400 [("message", Value.string "Incorrect data"), ("body", Value.null)], w, none⟩
  | some req =>
    let w := w.log "DeleteCliente"
    match DeleteCliente mongo w.server req with
    | Except.error p => ⟨c, w, some p⟩
    | Except.ok (srv, err) =>
      let w := { w with server := srv }
      let c := if err ≠ none then
          c.JSON 400 [("message", Value.string "error delete to db"), ("body", Value.null)]
        else c
      ⟨c.JSON 200 [("message", Value.string "delete data sucess"), ("body", Value.record req)],
        w, none⟩

/-- Embeds `func SetupRouter() *gin.Engine` (lines 221-235). -/
def SetupRouter : gin.Engine Cliente :=
  let mongo := MongoDB.zero
  let mongo := SetDefault mongo
  { middleware := ["Logger", "Recovery", "Logger", "Recovery", "MiddleDB"],
    mongo := mongo,
    routes := [⟨"GET", "/cliente", getCliente⟩, ⟨"POST", "/cliente", postCliente⟩,
      ⟨"PUT", "/cliente", putCliente⟩, ⟨"DELETE", "/cliente", deleteCliente⟩] }

end Gettyio

/-! ## Vocabulary of the statements -/

namespace gin

/-- The response written by `c.JSON(400, gin.H{"message": msg, "body": nil})`. -/
def errorReply {α : Type} (msg : String) : Response α :=
  ⟨400, [("message", Value.string msg), ("body", Value.null)]⟩

/-- The response written by `c.JSON(200, gin.H{"message": msg, "body": body})`. -/
def successReply {α : Type} (msg : String) (body : Value α) : Response α :=
  ⟨200, [("message", Value.string msg), ("body", body)]⟩

/-- The message strings that occur in the handlers. -/
def messages : List String :=
  ["can't reach db", "can't connect to db", "can't get data from database", "Incorrect data",
   "error post to db", "error put to db", "error delete to db",
   "get data sucess", "post data sucess", "put data sucess", "delete data sucess"]

/-- The response envelope: an object with exactly the two fields `message` and
`body`, the message one of the fixed strings, the status 200 or 400, and a null
body whenever the status is 400. -/
def Response.IsEnvelope {α : Type} (r : Response α) : Prop :=
  ∃ msg body, r.obj = [("message", Value.string msg), ("body", body)] ∧ msg ∈ messages ∧
    (r.code = 200 ∨ r.code = 400) ∧ (r.code = 400 → body = Value.null)

end gin

/-- Every response a handler adds, from any context and world and whether or not
the run ends in a panic, is an envelope. -/
def Handler.WritesEnvelopes {α : Type} (h : Handler α) : Prop :=
  ∀ c w, ∃ new, (h c w).c.written = c.written ++ new ∧ ∀ r ∈ new, r.IsEnvelope

/-- The renaming of the entity of `go_gettyio.go` into the entity of `main.go`:
the field `Idade` becomes `Age`. -/
def Gettyio.Cliente.toCustomer (x : Gettyio.Cliente) : Main.Customer :=
  ⟨x.Id, x.Name, x.Idade⟩

/-- Apply a renaming of records to a value of a `gin.H`. -/
def gin.Value.map {α β : Type} (f : α → β) : gin.Value α → gin.Value β
  | gin.Value.null => gin.Value.null
  | gin.Value.string s => gin.Value.string s
  | gin.Value.record a => gin.Value.record (f a)
  | gin.Value.records l => gin.Value.records (l.map f)

/-- Apply a renaming of records to a response: same status, same keys, same
message, the body renamed. -/
def gin.Response.map {α β : Type} (f : α → β) (r : gin.Response α) : gin.Response β :=
  ⟨r.code, r.obj.map (fun p => (p.1, p.2.map f))⟩

/-- Two runs, one of a Cliente handler and one of a Customer handler, write the
same sequence of responses up to the renaming, and end the same way. -/
def Run.SameResponses (rg : Run Gettyio.Cliente) (rm : Run Main.Customer) : Prop :=
  rg.c.written.map (gin.Response.map Gettyio.Cliente.toCustomer) = rm.c.written ∧
    rg.panic = rm.panic

/-! ## Concrete inputs -/

/-- The identifier `507f1f77bcf86cd799439011` (hexadecimal, as JSON carries it),
used for a stored record. -/
def oidKnown : bson.ObjectId :=
  [0x50, 0x7f, 0x1f, 0x77, 0xbc, 0xf8, 0x6c, 0xd7, 0x99, 0x43, 0x90, 0x11]

/-- The identifier `507f191e810c19729de860ea`, which no stored record has. -/
def oidUnknown : bson.ObjectId :=
  [0x50, 0x7f, 0x19, 0x1e, 0x81, 0x0c, 0x19, 0x72, 0x9d, 0xe8, 0x60, 0xea]

/-- The identifier `5f43a1b2c3d4e5f601234567`, the next one the server
generates. -/
def oidServer : bson.ObjectId :=
  [0x5f, 0x43, 0xa1, 0xb2, 0xc3, 0xd4, 0xe5, 0xf6, 0x01, 0x23, 0x45, 0x67]

namespace Main

/-- The handle of `SetupRouter` after a successful `SetSession`. -/
def handle : MongoDB :=
  { SetDefault MongoDB.zero with Session := some ⟨["localhost:27017"]⟩ }

/-- A context holding the handle, whose body binds to `{name:"Ana", age:30}`. -/
def ctxAna : gin.Context Customer :=
  ⟨[("mongo", Any.ptrMongoDB (some handle))], some ⟨[], "Ana", 30⟩, [], false⟩

/-- A context holding the handle, whose body binds to a record with an
identifier. -/
def ctxAnaId : gin.Context Customer :=
  ⟨[("mongo", Any.ptrMongoDB (some handle))], some ⟨oidKnown, "Ana", 31⟩, [], false⟩

/-- A context holding the handle, whose body does not bind. -/
def ctxMalformed : gin.Context Customer :=
  ⟨[("mongo", Any.ptrMongoDB (some handle))], none, [], false⟩

/-- A context holding the handle, whose body binds to a record with an
identifier that no stored customer has. -/
def ctxUnknownId : gin.Context Customer :=
  ⟨[("mongo", Any.ptrMongoDB (some handle))], some ⟨oidUnknown, "Bia", 40⟩, [], false⟩

/-- A context without the key `mongo`, whose body does not bind. -/
def ctxNoHandle : gin.Context Customer := ⟨[], none, [], false⟩

/-- A context without the key `mongo`, whose body binds. -/
def ctxNoHandleAna : gin.Context Customer := ⟨[], some ⟨[], "Ana", 30⟩, [], false⟩

/-- A reachable server with an empty database. -/
def worldEmpty : World Customer :=
  ⟨true, true, ⟨[], true, oidServer⟩, []⟩

/-- A reachable server holding one customer. -/
def worldOne : World Customer :=
  ⟨true, true, ⟨[("gettyio.Customer", [⟨oidKnown, "Ana", 30⟩])], true, oidServer⟩, []⟩

/-- A server that does not answer. -/
def worldDown : World Customer :=
  ⟨false, false, ⟨[("gettyio.Customer", [⟨oidKnown, "Ana", 30⟩])], false, oidServer⟩, []⟩

end Main

namespace Gettyio

/-- The handle of `SetupRouter` after a successful `SetSession`. -/
def handle : MongoDB :=
  { SetDefault MongoDB.zero with Session := some ⟨["localhost:27017"]⟩ }

/-- A context holding the handle, whose body binds to `{name:"Ana", idade:30}`. -/
def ctxAna : gin.Context Cliente :=
  ⟨[("mongo", Any.ptrMongoDB (some handle))], some ⟨[], "Ana", 30⟩, [], false⟩

/-- A context holding the handle, whose body binds to a record with an
identifier. -/
def ctxAnaId : gin.Context Cliente :=
  ⟨[("mongo", Any.ptrMongoDB (some handle))], some ⟨oidKnown, "Ana", 31⟩, [], false⟩

/-- A context holding the handle, whose body does not bind. -/
def ctxMalformed : gin.Context Cliente :=
  ⟨[("mongo", Any.ptrMongoDB (some handle))], none, [], false⟩

/-- A reachable server holding one cliente. -/
def worldOne : World Cliente :=
  ⟨true, true, ⟨[("gettyio_01.Cliente", [⟨oidKnown, "Ana", 30⟩])], true, oidServer⟩,
    []⟩

end Gettyio

/-! ## Theorems -/

open gin

/-- C1: when the context holds the database handle and the body does not bind,
`postCustomer`, `putCustomer`, `deleteCustomer` and their Cliente twins write
exactly one response, 400 "Incorrect data" with a null body, and return: the
world is left as it was (no data-access call in the trace, same server), no 200
response is written and nothing panics. -/
theorem bind_failure_emits_400_and_stops
    (c : Context Main.Customer) (w : World Main.Customer) (mongo : MongoDB)
    (c' : Context Gettyio.Cliente) (w' : World Gettyio.Cliente) (mongo' : MongoDB)
    (hk : c.Keys.lookup "mongo" = some (Any.ptrMongoDB (some mongo))) (hb : c.Bind = none)
    (hk' : c'.Keys.lookup "mongo" = some (Any.ptrMongoDB (some mongo')))
    (hb' : c'.Bind = none) :
    (Main.postCustomer c w
        = ⟨{ c with written := c.written ++ [errorReply "Incorrect data"] }, w, none⟩ ∧
     Main.putCustomer c w
        = ⟨{ c with written := c.written ++ [errorReply "Incorrect data"] }, w, none⟩ ∧
     Main.deleteCustomer c w
        = ⟨{ c with written := c.written ++ [errorReply "Incorrect data"] }, w, none⟩) ∧
    (Gettyio.postCliente c' w'
        = ⟨{ c' with written := c'.written ++ [errorReply "Incorrect data"] }, w', none⟩ ∧
     Gettyio.putCliente c' w'
        = ⟨{ c' with written := c'.written ++ [errorReply "Incorrect data"] }, w', none⟩ ∧
     Gettyio.deleteCliente c' w'
        = ⟨{ c' with written := c'.written ++ [errorReply "Incorrect data"] }, w', none⟩) := by
  have hb0 : c.request = none := hb
  have hb0' : c'.request = none := hb'
  refine ⟨⟨?_, ?_, ?_⟩, ⟨?_, ?_, ?_⟩⟩ <;>
    simp [Main.postCustomer, Main.putCustomer, Main.deleteCustomer, Gettyio.postCliente,
      Gettyio.putCliente, Gettyio.deleteCliente, hk, hk', hb0, hb0', Any.assertMongoDB,
      Context.Bind, Context.JSON, errorReply]

/-- Witness of C1: a malformed body sent to each of the six handlers. -/
theorem bind_failure_emits_400_and_stops_witness :
    (Main.postCustomer Main.ctxMalformed Main.worldOne
        = ⟨{ Main.ctxMalformed with written := [errorReply "Incorrect data"] }, Main.worldOne,
            none⟩ ∧
     Main.putCustomer Main.ctxMalformed Main.worldOne
        = ⟨{ Main.ctxMalformed with written := [errorReply "Incorrect data"] }, Main.worldOne,
            none⟩ ∧
     Main.deleteCustomer Main.ctxMalformed Main.worldOne
        = ⟨{ Main.ctxMalformed with written := [errorReply "Incorrect data"] }, Main.worldOne,
            none⟩) ∧
    (Gettyio.postCliente Gettyio.ctxMalformed Gettyio.worldOne
        = ⟨{ Gettyio.ctxMalformed with written := [errorReply "Incorrect data"] },
            Gettyio.worldOne, none⟩ ∧
     Gettyio.putCliente Gettyio.ctxMalformed Gettyio.worldOne
        = ⟨{ Gettyio.ctxMalformed with written := [errorReply "Incorrect data"] },
            Gettyio.worldOne, none⟩ ∧
     Gettyio.deleteCliente Gettyio.ctxMalformed Gettyio.worldOne
        = ⟨{ Gettyio.ctxMalformed with written := [errorReply "Incorrect data"] },
            Gettyio.worldOne, none⟩) :=
  bind_failure_emits_400_and_stops Main.ctxMalformed Main.worldOne Main.handle
    Gettyio.ctxMalformed Gettyio.worldOne Gettyio.handle (by decide) (by decide) (by decide)
    (by decide)

/-- C2: when the context holds the database handle, the body binds (mutating
verbs) and the data-access operation returns no error, each of the four handlers
writes exactly one response: status 200, its fixed success message, and as body
the list returned by `GetCustomer` (GET) or the bound request record (POST, PUT,
DELETE). -/
theorem success_emits_exactly_one_200
    (c : Context Main.Customer) (w : World Main.Customer) (mongo : MongoDB)
    (hk : c.Keys.lookup "mongo" = some (Any.ptrMongoDB (some mongo))) :
    (∀ data, Main.GetCustomer (some mongo) w.server = Except.ok (data, none) →
      Main.getCustomer c w =
        ⟨{ c with written :=
            c.written ++ [successReply "get data sucess" (Value.records data)] },
          w.log "GetCustomer", none⟩) ∧
    (∀ req srv, c.Bind = some req →
      Main.PostCustomer (some mongo) w.server req = Except.ok (srv, none) →
      Main.postCustomer c w =
        ⟨{ c with written :=
            c.written ++ [successReply "post data sucess" (Value.record req)] },
          { w.log "PostCustomer" with server := srv }, none⟩) ∧
    (∀ req srv, c.Bind = some req →
      Main.PutCustomer (some mongo) w.server req = Except.ok (srv, none) →
      Main.putCustomer c w =
        ⟨{ c with written :=
            c.written ++ [successReply "put data sucess" (Value.record req)] },
          { w.log "PutCustomer" with server := srv }, none⟩) ∧
    (∀ req srv, c.Bind = some req →
      Main.DeleteCustomer (some mongo) w.server req = Except.ok (srv, none) →
      Main.deleteCustomer c w =
        ⟨{ c with written :=
            c.written ++ [successReply "delete data sucess" (Value.record req)] },
          { w.log "DeleteCustomer" with server := srv }, none⟩) := by
  refine ⟨?_, ?_, ?_, ?_⟩
  · intro data h
    simp [Main.getCustomer, hk, Any.assertMongoDB, World.log, h, Context.JSON, successReply]
  · intro req srv hb h
    have hb0 : c.request = some req := hb
    simp [Main.postCustomer, hk, Any.assertMongoDB, World.log, h, hb0, Context.Bind,
      Context.JSON, successReply]
  · intro req srv hb h
    have hb0 : c.request = some req := hb
    simp [Main.putCustomer, hk, Any.assertMongoDB, World.log, h, hb0, Context.Bind,
      Context.JSON, successReply]
  · intro req srv hb h
    have hb0 : c.request = some req := hb
    simp [Main.deleteCustomer, hk, Any.assertMongoDB, World.log, h, hb0, Context.Bind,
      Context.JSON, successReply]

/-- Witness of C2: GET, PUT and DELETE on a server holding one customer, POST of
a new customer. -/
theorem success_emits_exactly_one_200_witness :
    (Main.getCustomer Main.ctxAna Main.worldOne).c.written
        = [successReply "get data sucess" (Value.records [⟨oidKnown, "Ana", 30⟩])] ∧
    (Main.postCustomer Main.ctxAna Main.worldOne).c.written
        = [successReply "post data sucess" (Value.record ⟨[], "Ana", 30⟩)] ∧
    (Main.putCustomer Main.ctxAnaId Main.worldOne).c.written
        = [successReply "put data sucess" (Value.record ⟨oidKnown, "Ana", 31⟩)] ∧
    (Main.deleteCustomer Main.ctxAnaId Main.worldOne).c.written
        = [successReply "delete data sucess" (Value.record ⟨oidKnown, "Ana", 31⟩)] :=
  ⟨congrArg (fun r => r.c.written)
      ((success_emits_exactly_one_200 Main.ctxAna Main.worldOne Main.handle (by decide)).1
        [⟨oidKnown, "Ana", 30⟩] rfl),
   congrArg (fun r => r.c.written)
      ((success_emits_exactly_one_200 Main.ctxAna Main.worldOne Main.handle (by decide)).2.1
        ⟨[], "Ana", 30⟩
        ⟨[("gettyio.Customer", [⟨oidKnown, "Ana", 30⟩, ⟨oidServer, "Ana", 30⟩])],
          true, oidServer⟩ (by decide) rfl),
   congrArg (fun r => r.c.written)
      ((success_emits_exactly_one_200 Main.ctxAnaId Main.worldOne Main.handle
        (by decide)).2.2.1 ⟨oidKnown, "Ana", 31⟩
        ⟨[("gettyio.Customer", [⟨oidKnown, "Ana", 31⟩])], true, oidServer⟩
        (by decide) rfl),
   congrArg (fun r => r.c.written)
      ((success_emits_exactly_one_200 Main.ctxAnaId Main.worldOne Main.handle
        (by decide)).2.2.2 ⟨oidKnown, "Ana", 31⟩
        ⟨[("gettyio.Customer", [])], true, oidServer⟩ (by decide) rfl)⟩

/-- C3: when the context holds the database handle, the body binds and the
data-access operation returns an error, `postCustomer`, `putCustomer` and
`deleteCustomer` write a 400 response with a null body and do not stop: the 200
response with the success message and the bound request follows, so the
responses written are exactly the 400 and then the 200. -/
theorem database_error_emits_400_then_200
    (c : Context Main.Customer) (w : World Main.Customer) (mongo : MongoDB)
    (hk : c.Keys.lookup "mongo" = some (Any.ptrMongoDB (some mongo))) :
    (∀ req srv e, c.Bind = some req →
      Main.PostCustomer (some mongo) w.server req = Except.ok (srv, some e) →
      Main.postCustomer c w =
        ⟨{ c with written := c.written ++ [errorReply "error post to db",
            successReply "post data sucess" (Value.record req)] },
          { w.log "PostCustomer" with server := srv }, none⟩) ∧
    (∀ req srv e, c.Bind = some req →
      Main.PutCustomer (some mongo) w.server req = Except.ok (srv, some e) →
      Main.putCustomer c w =
        ⟨{ c with written := c.written ++ [errorReply "error put to db",
            successReply "put data sucess" (Value.record req)] },
          { w.log "PutCustomer" with server := srv }, none⟩) ∧
    (∀ req srv e, c.Bind = some req →
      Main.DeleteCustomer (some mongo) w.server req = Except.ok (srv, some e) →
      Main.deleteCustomer c w =
        ⟨{ c with written := c.written ++ [errorReply "error delete to db",
            successReply "delete data sucess" (Value.record req)] },
          { w.log "DeleteCustomer" with server := srv }, none⟩) := by
  refine ⟨?_, ?_, ?_⟩
  · intro req srv e hb h
    have hb0 : c.request = some req := hb
    simp [Main.postCustomer, hk, Any.assertMongoDB, World.log, h, hb0, Context.Bind,
      Context.JSON, successReply, errorReply]
  · intro req srv e hb h
    have hb0 : c.request = some req := hb
    simp [Main.putCustomer, hk, Any.assertMongoDB, World.log, h, hb0, Context.Bind,
      Context.JSON, successReply, errorReply]
  · intro req srv e hb h
    have hb0 : c.request = some req := hb
    simp [Main.deleteCustomer, hk, Any.assertMongoDB, World.log, h, hb0, Context.Bind,
      Context.JSON, successReply, errorReply]

/-- Witness of C3: the three mutating requests sent while the server does not
answer. -/
theorem database_error_emits_400_then_200_witness :
    (Main.postCustomer Main.ctxAna Main.worldDown).c.written
        = [errorReply "error post to db",
           successReply "post data sucess" (Value.record ⟨[], "Ana", 30⟩)] ∧
    (Main.putCustomer Main.ctxAnaId Main.worldDown).c.written
        = [errorReply "error put to db",
           successReply "put data sucess" (Value.record ⟨oidKnown, "Ana", 31⟩)] ∧
    (Main.deleteCustomer Main.ctxAnaId Main.worldDown).c.written
        = [errorReply "error delete to db",
           successReply "delete data sucess" (Value.record ⟨oidKnown, "Ana", 31⟩)] :=
  ⟨congrArg (fun r => r.c.written)
      ((database_error_emits_400_then_200 Main.ctxAna Main.worldDown Main.handle
        (by decide)).1 ⟨[], "Ana", 30⟩ Main.worldDown.server mgo.Error.unreachable
        (by decide) rfl),
   congrArg (fun r => r.c.written)
      ((database_error_emits_400_then_200 Main.ctxAnaId Main.worldDown Main.handle
        (by decide)).2.1 ⟨oidKnown, "Ana", 31⟩ Main.worldDown.server
        mgo.Error.unreachable (by decide) rfl),
   congrArg (fun r => r.c.written)
      ((database_error_emits_400_then_200 Main.ctxAnaId Main.worldDown Main.handle
        (by decide)).2.2 ⟨oidKnown, "Ana", 31⟩ Main.worldDown.server
        mgo.Error.unreachable (by decide) rfl)⟩

/-- C4: when the context holds the database handle, `getCustomer` (and
`getCliente`) writes exactly one response: 400 "can't get data from database"
with a null body when the list operation returns an error, 200 with the returned
list when it returns none.  With a session in the handle the list operation
always returns, and no run writes both responses. -/
theorem get_writes_either_400_or_200
    (c : Context Main.Customer) (w : World Main.Customer) (mongo : MongoDB)
    (c' : Context Gettyio.Cliente) (w' : World Gettyio.Cliente) (mongo' : MongoDB)
    (hk : c.Keys.lookup "mongo" = some (Any.ptrMongoDB (some mongo)))
    (hk' : c'.Keys.lookup "mongo" = some (Any.ptrMongoDB (some mongo'))) :
    ((∀ data e, Main.GetCustomer (some mongo) w.server = Except.ok (data, some e) →
        Main.getCustomer c w =
          ⟨{ c with written := c.written ++ [errorReply "can't get data from database"] },
            w.log "GetCustomer", none⟩) ∧
     (∀ data, Main.GetCustomer (some mongo) w.server = Except.ok (data, none) →
        Main.getCustomer c w =
          ⟨{ c with written :=
              c.written ++ [successReply "get data sucess" (Value.records data)] },
            w.log "GetCustomer", none⟩) ∧
     (∀ s, mongo.Session = some s →
        ∃ data err, Main.GetCustomer (some mongo) w.server = Except.ok (data, err)) ∧
     (∀ new data, (Main.getCustomer c w).c.written = c.written ++ new →
        ¬ (errorReply "can't get data from database" ∈ new ∧
            successReply "get data sucess" (Value.records data) ∈ new))) ∧
    ((∀ data e, Gettyio.GetCliente (some mongo') w'.server = Except.ok (data, some e) →
        Gettyio.getCliente c' w' =
          ⟨{ c' with written := c'.written ++ [errorReply "can't get data from database"] },
            w'.log "GetCliente", none⟩) ∧
     (∀ data, Gettyio.GetCliente (some mongo') w'.server = Except.ok (data, none) →
        Gettyio.getCliente c' w' =
          ⟨{ c' with written :=
              c'.written ++ [successReply "get data sucess" (Value.records data)] },
            w'.log "GetCliente", none⟩) ∧
     (∀ s, mongo'.Session = some s →
        ∃ data err, Gettyio.GetCliente (some mongo') w'.server = Except.ok (data, err)) ∧
     (∀ new data, (Gettyio.getCliente c' w').c.written = c'.written ++ new →
        ¬ (errorReply "can't get data from database" ∈ new ∧
            successReply "get data sucess" (Value.records data) ∈ new))) := by
  refine ⟨⟨?_, ?_, ?_, ?_⟩, ⟨?_, ?_, ?_, ?_⟩⟩
  · intro data e h
    simp [Main.getCustomer, hk, Any.assertMongoDB, World.log, h, Context.JSON, errorReply]
  · intro data h
    simp [Main.getCustomer, hk, Any.assertMongoDB, World.log, h, Context.JSON, successReply]
  · intro s hs
    simp only [Main.GetCustomer, hs]
    exact ⟨_, _, rfl⟩
  · intro new data hw
    rcases hg : Main.GetCustomer (some mongo) w.server with p | ⟨l, _ | e⟩ <;>
      simp [Main.getCustomer, hk, Any.assertMongoDB, World.log, hg, Context.JSON] at hw <;>
      subst hw <;> simp [errorReply, successReply]
  · intro data e h
    simp [Gettyio.getCliente, hk', Any.assertMongoDB, World.log, h, Context.JSON, errorReply]
  · intro data h
    simp [Gettyio.getCliente, hk', Any.assertMongoDB, World.log, h, Context.JSON,
      successReply]
  · intro s hs
    simp only [Gettyio.GetCliente, hs]
    exact ⟨_, _, rfl⟩
  · intro new data hw
    rcases hg : Gettyio.GetCliente (some mongo') w'.server with p | ⟨l, _ | e⟩ <;>
      simp [Gettyio.getCliente, hk', Any.assertMongoDB, World.log, hg, Context.JSON] at hw <;>
      subst hw <;> simp [errorReply, successReply]

/-- Witness of C4: the list request against a server that does not answer
(Customer) and against one that holds a record (Cliente). -/
theorem get_writes_either_400_or_200_witness :
    (Main.getCustomer Main.ctxAna Main.worldDown).c.written
        = [errorReply "can't get data from database"] ∧
    (Gettyio.getCliente Gettyio.ctxAna Gettyio.worldOne).c.written
        = [successReply "get data sucess" (Value.records [⟨oidKnown, "Ana", 30⟩])] :=
  ⟨congrArg (fun r => r.c.written)
      ((get_writes_either_400_or_200 Main.ctxAna Main.worldDown Main.handle Gettyio.ctxAna
        Gettyio.worldOne Gettyio.handle (by decide) (by decide)).1.1 []
        mgo.Error.unreachable rfl),
   congrArg (fun r => r.c.written)
      ((get_writes_either_400_or_200 Main.ctxAna Main.worldDown Main.handle Gettyio.ctxAna
        Gettyio.worldOne Gettyio.handle (by decide) (by decide)).2.2.1
        [⟨oidKnown, "Ana", 30⟩] rfl)⟩

/-! ### Envelopes -/

/-- A 400 reply with a fixed message is an envelope. -/
theorem errorReply_isEnvelope {α : Type} (msg : String) (h : msg ∈ messages) :
    (errorReply msg : Response α).IsEnvelope :=
  ⟨msg, Value.null, rfl, h, Or.inr rfl, fun _ => rfl⟩

/-- A 200 reply with a fixed message is an envelope. -/
theorem successReply_isEnvelope {α : Type} (msg : String) (body : Value α)
    (h : msg ∈ messages) : (successReply msg body).IsEnvelope :=
  ⟨msg, body, rfl, h, Or.inl rfl, fun h => by simp [successReply] at h⟩

/-- No response, no obligation. -/
theorem envelopes_nil {α : Type} : ∀ r ∈ ([] : List (Response α)), r.IsEnvelope := by
  intro r hr; cases hr

/-- Envelopes one response at a time. -/
theorem envelopes_cons {α : Type} {a : Response α} {l : List (Response α)}
    (ha : a.IsEnvelope) (hl : ∀ r ∈ l, r.IsEnvelope) : ∀ r ∈ a :: l, r.IsEnvelope := by
  intro r hr
  rcases List.mem_cons.1 hr with rfl | h
  · exact ha
  · exact hl r h

/-- C5: every response written by any of the four handlers of either file, on
every path (missing handle, bind failure, database error, success, and runs
ended by a panic), is an object with exactly the fields `message` and `body`,
the message one of the fixed strings, the status 200 or 400, and the body null
in every 400 response. -/
theorem every_response_is_an_envelope :
    (Handler.WritesEnvelopes Main.getCustomer ∧ Handler.WritesEnvelopes Main.postCustomer ∧
     Handler.WritesEnvelopes Main.putCustomer ∧ Handler.WritesEnvelopes Main.deleteCustomer) ∧
    (Handler.WritesEnvelopes Gettyio.getCliente ∧ Handler.WritesEnvelopes Gettyio.postCliente ∧
     Handler.WritesEnvelopes Gettyio.putCliente ∧
     Handler.WritesEnvelopes Gettyio.deleteCliente) := by
  refine ⟨⟨?_, ?_, ?_, ?_⟩, ⟨?_, ?_, ?_, ?_⟩⟩
  · intro c w
    rcases ha : Any.assertMongoDB (c.Keys.lookup "mongo") with ⟨mongo, _ | _⟩ <;>
    rcases hg : Main.GetCustomer mongo w.server with p | ⟨l, _ | e⟩ <;>
    simp only [Main.getCustomer, ha, hg, World.log, Context.JSON, Context.Bind,
      List.append_assoc, List.singleton_append, ne_eq, not_true_eq_false, reduceCtorEq,
      not_false_eq_true, ite_true, ite_false, Bool.not_true, Bool.not_false,
      Bool.false_eq_true] <;>
    first
    | exact ⟨[], (List.append_nil _).symm, envelopes_nil⟩
    | exact ⟨_, rfl, envelopes_cons (errorReply_isEnvelope _ (by decide)) envelopes_nil⟩
    | exact ⟨_, rfl, envelopes_cons (successReply_isEnvelope _ _ (by decide)) envelopes_nil⟩
    | exact ⟨_, rfl, envelopes_cons (errorReply_isEnvelope _ (by decide))
        (envelopes_cons (errorReply_isEnvelope _ (by decide)) envelopes_nil)⟩
    | exact ⟨_, rfl, envelopes_cons (errorReply_isEnvelope _ (by decide))
        (envelopes_cons (successReply_isEnvelope _ _ (by decide)) envelopes_nil)⟩
  · intro c w
    rcases hb : c.request with _ | req
    · rcases ha : Any.assertMongoDB (c.Keys.lookup "mongo") with ⟨mongo, _ | _⟩ <;>
      simp only [Main.postCustomer, ha, hb, World.log, Context.JSON, Context.Bind,
      List.append_assoc, List.singleton_append, ne_eq, not_true_eq_false, reduceCtorEq,
      not_false_eq_true, ite_true, ite_false, Bool.not_true, Bool.not_false,
      Bool.false_eq_true] <;>
      first
      | exact ⟨_, rfl, envelopes_cons (errorReply_isEnvelope _ (by decide)) envelopes_nil⟩
      | exact ⟨_, rfl, envelopes_cons (errorReply_isEnvelope _ (by decide))
          (envelopes_cons (errorReply_isEnvelope _ (by decide)) envelopes_nil)⟩
    · rcases ha : Any.assertMongoDB (c.Keys.lookup "mongo") with ⟨mongo, _ | _⟩ <;>
      rcases hg : Main.PostCustomer mongo w.server req with p | ⟨srv, _ | e⟩ <;>
      simp only [Main.postCustomer, ha, hb, hg, World.log, Context.JSON, Context.Bind,
      List.append_assoc, List.singleton_append, ne_eq, not_true_eq_false, reduceCtorEq,
      not_false_eq_true, ite_true, ite_false, Bool.not_true, Bool.not_false,
      Bool.false_eq_true] <;>
      first
      | exact ⟨[], (List.append_nil _).symm, envelopes_nil⟩
      | exact ⟨_, rfl, envelopes_cons (errorReply_isEnvelope _ (by decide)) envelopes_nil⟩
      | exact ⟨_, rfl, envelopes_cons (successReply_isEnvelope _ _ (by decide)) envelopes_nil⟩
      | exact ⟨_, rfl, envelopes_cons (errorReply_isEnvelope _ (by decide))
          (envelopes_cons (successReply_isEnvelope _ _ (by decide)) envelopes_nil)⟩
      | exact ⟨_, rfl, envelopes_cons (errorReply_isEnvelope _ (by decide))
          (envelopes_cons (errorReply_isEnvelope _ (by decide))
            (envelopes_cons (successReply_isEnvelope _ _ (by decide)) envelopes_nil))⟩
  · intro c w
    rcases hb : c.request with _ | req
    · rcases ha : Any.assertMongoDB (c.Keys.lookup "mongo") with ⟨mongo, _ | _⟩ <;>
      simp only [Main.putCustomer, ha, hb, World.log, Context.JSON, Context.Bind,
      List.append_assoc, List.singleton_append, ne_eq, not_true_eq_false, reduceCtorEq,
      not_false_eq_true, ite_true, ite_false, Bool.not_true, Bool.not_false,
      Bool.false_eq_true] <;>
      first
      | exact ⟨_, rfl, envelopes_cons (errorReply_isEnvelope _ (by decide)) envelopes_nil⟩
      | exact ⟨_, rfl, envelopes_cons (errorReply_isEnvelope _ (by decide))
          (envelopes_cons (errorReply_isEnvelope _ (by decide)) envelopes_nil)⟩
    · rcases ha : Any.assertMongoDB (c.Keys.lookup "mongo") with ⟨mongo, _ | _⟩ <;>
      rcases hg : Main.PutCustomer mongo w.server req with p | ⟨srv, _ | e⟩ <;>
      simp only [Main.putCustomer, ha, hb, hg, World.log, Context.JSON, Context.Bind,
      List.append_assoc, List.singleton_append, ne_eq, not_true_eq_false, reduceCtorEq,
      not_false_eq_true, ite_true, ite_false, Bool.not_true, Bool.not_false,
      Bool.false_eq_true] <;>
      first
      | exact ⟨[], (List.append_nil _).symm, envelopes_nil⟩
      | exact ⟨_, rfl, envelopes_cons (errorReply_isEnvelope _ (by decide)) envelopes_nil⟩
      | exact ⟨_, rfl, envelopes_cons (successReply_isEnvelope _ _ (by decide)) envelopes_nil⟩
      | exact ⟨_, rfl, envelopes_cons (errorReply_isEnvelope _ (by decide))
          (envelopes_cons (successReply_isEnvelope _ _ (by decide)) envelopes_nil)⟩
      | exact ⟨_, rfl, envelopes_cons (errorReply_isEnvelope _ (by decide))
          (envelopes_cons (errorReply_isEnvelope _ (by decide))
            (envelopes_cons (successReply_isEnvelope _ _ (by decide)) envelopes_nil))⟩
  · intro c w
    rcases hb : c.request with _ | req
    · rcases ha : Any.assertMongoDB (c.Keys.lookup "mongo") with ⟨mongo, _ | _⟩ <;>
      simp only [Main.deleteCustomer, ha, hb, World.log, Context.JSON, Context.Bind,
      List.append_assoc, List.singleton_append, ne_eq, not_true_eq_false, reduceCtorEq,
      not_false_eq_true, ite_true, ite_false, Bool.not_true, Bool.not_false,
      Bool.false_eq_true] <;>
      first
      | exact ⟨_, rfl, envelopes_cons (errorReply_isEnvelope _ (by decide)) envelopes_nil⟩
      | exact ⟨_, rfl, envelopes_cons (errorReply_isEnvelope _ (by decide))
          (envelopes_cons (errorReply_isEnvelope _ (by decide)) envelopes_nil)⟩
    · rcases ha : Any.assertMongoDB (c.Keys.lookup "mongo") with ⟨mongo, _ | _⟩ <;>
      rcases hg : Main.DeleteCustomer mongo w.server req with p | ⟨srv, _ | e⟩ <;>
      simp only [Main.deleteCustomer, ha, hb, hg, World.log, Context.JSON, Context.Bind,
      List.append_assoc, List.singleton_append, ne_eq, not_true_eq_false, reduceCtorEq,
      not_false_eq_true, ite_true, ite_false, Bool.not_true, Bool.not_false,
      Bool.false_eq_true] <;>
      first
      | exact ⟨[], (List.append_nil _).symm, envelopes_nil⟩
      | exact ⟨_, rfl, envelopes_cons (errorReply_isEnvelope _ (by decide)) envelopes_nil⟩
      | exact ⟨_, rfl, envelopes_cons (successReply_isEnvelope _ _ (by decide)) envelopes_nil⟩
      | exact ⟨_, rfl, envelopes_cons (errorReply_isEnvelope _ (by decide))
          (envelopes_cons (successReply_isEnvelope _ _ (by decide)) envelopes_nil)⟩
      | exact ⟨_, rfl, envelopes_cons (errorReply_isEnvelope _ (by decide))
          (envelopes_cons (errorReply_isEnvelope _ (by decide))
            (envelopes_cons (successReply_isEnvelope _ _ (by decide)) envelopes_nil))⟩
  · intro c w
    rcases ha : Any.assertMongoDB (c.Keys.lookup "mongo") with ⟨mongo, _ | _⟩ <;>
    rcases hg : Gettyio.GetCliente mongo w.server with p | ⟨l, _ | e⟩ <;>
    simp only [Gettyio.getCliente, ha, hg, World.log, Context.JSON, Context.Bind,
      List.append_assoc, List.singleton_append, ne_eq, not_true_eq_false, reduceCtorEq,
      not_false_eq_true, ite_true, ite_false, Bool.not_true, Bool.not_false,
      Bool.false_eq_true] <;>
    first
    | exact ⟨[], (List.append_nil _).symm, envelopes_nil⟩
    | exact ⟨_, rfl, envelopes_cons (errorReply_isEnvelope _ (by decide)) envelopes_nil⟩
    | exact ⟨_, rfl, envelopes_cons (successReply_isEnvelope _ _ (by decide)) envelopes_nil⟩
    | exact ⟨_, rfl, envelopes_cons (errorReply_isEnvelope _ (by decide))
        (envelopes_cons (errorReply_isEnvelope _ (by decide)) envelopes_nil)⟩
    | exact ⟨_, rfl, envelopes_cons (errorReply_isEnvelope _ (by decide))
        (envelopes_cons (successReply_isEnvelope _ _ (by decide)) envelopes_nil)⟩
  · intro c w
    rcases hb : c.request with _ | req
    · rcases ha : Any.assertMongoDB (c.Keys.lookup "mongo") with ⟨mongo, _ | _⟩ <;>
      simp only [Gettyio.postCliente, ha, hb, World.log, Context.JSON, Context.Bind,
      List.append_assoc, List.singleton_append, ne_eq, not_true_eq_false, reduceCtorEq,
      not_false_eq_true, ite_true, ite_false, Bool.not_true, Bool.not_false,
      Bool.false_eq_true] <;>
      first
      | exact ⟨_, rfl, envelopes_cons (errorReply_isEnvelope _ (by decide)) envelopes_nil⟩
      | exact ⟨_, rfl, envelopes_cons (errorReply_isEnvelope _ (by decide))
          (envelopes_cons (errorReply_isEnvelope _ (by decide)) envelopes_nil)⟩
    · rcases ha : Any.assertMongoDB (c.Keys.lookup "mongo") with ⟨mongo, _ | _⟩ <;>
      rcases hg : Gettyio.PostCliente mongo w.server req with p | ⟨srv, _ | e⟩ <;>
      simp only [Gettyio.postCliente, ha, hb, hg, World.log, Context.JSON, Context.Bind,
      List.append_assoc, List.singleton_append, ne_eq, not_true_eq_false, reduceCtorEq,
      not_false_eq_true, ite_true, ite_false, Bool.not_true, Bool.not_false,
      Bool.false_eq_true] <;>
      first
      | exact ⟨[], (List.append_nil _).symm, envelopes_nil⟩
      | exact ⟨_, rfl, envelopes_cons (errorReply_isEnvelope _ (by decide)) envelopes_nil⟩
      | exact ⟨_, rfl, envelopes_cons (successReply_isEnvelope _ _ (by decide)) envelopes_nil⟩
      | exact ⟨_, rfl, envelopes_cons (errorReply_isEnvelope _ (by decide))
          (envelopes_cons (successReply_isEnvelope _ _ (by decide)) envelopes_nil)⟩
      | exact ⟨_, rfl, envelopes_cons (errorReply_isEnvelope _ (by decide))
          (envelopes_cons (errorReply_isEnvelope _ (by decide))
            (envelopes_cons (successReply_isEnvelope _ _ (by decide)) envelopes_nil))⟩
  · intro c w
    rcases hb : c.request with _ | req
    · rcases ha : Any.assertMongoDB (c.Keys.lookup "mongo") with ⟨mongo, _ | _⟩ <;>
      simp only [Gettyio.putCliente, ha, hb, World.log, Context.JSON, Context.Bind,
      List.append_assoc, List.singleton_append, ne_eq, not_true_eq_false, reduceCtorEq,
      not_false_eq_true, ite_true, ite_false, Bool.not_true, Bool.not_false,
      Bool.false_eq_true] <;>
      first
      | exact ⟨_, rfl, envelopes_cons (errorReply_isEnvelope _ (by decide)) envelopes_nil⟩
      | exact ⟨_, rfl, envelopes_cons (errorReply_isEnvelope _ (by decide))
          (envelopes_cons (errorReply_isEnvelope _ (by decide)) envelopes_nil)⟩
    · rcases ha : Any.assertMongoDB (c.Keys.lookup "mongo") with ⟨mongo, _ | _⟩ <;>
      rcases hg : Gettyio.PutCliente mongo w.server req with p | ⟨srv, _ | e⟩ <;>
      simp only [Gettyio.putCliente, ha, hb, hg, World.log, Context.JSON, Context.Bind,
      List.append_assoc, List.singleton_append, ne_eq, not_true_eq_false, reduceCtorEq,
      not_false_eq_true, ite_true, ite_false, Bool.not_true, Bool.not_false,
      Bool.false_eq_true] <;>
      first
      | exact ⟨[], (List.append_nil _).symm, envelopes_nil⟩
      | exact ⟨_, rfl, envelopes_cons (errorReply_isEnvelope _ (by decide)) envelopes_nil⟩
      | exact ⟨_, rfl, envelopes_cons (successReply_isEnvelope _ _ (by decide)) envelopes_nil⟩
      | exact ⟨_, rfl, envelopes_cons (errorReply_isEnvelope _ (by decide))
          (envelopes_cons (successReply_isEnvelope _ _ (by decide)) envelopes_nil)⟩
      | exact ⟨_, rfl, envelopes_cons (errorReply_isEnvelope _ (by decide))
          (envelopes_cons (errorReply_isEnvelope _ (by decide))
            (envelopes_cons (successReply_isEnvelope _ _ (by decide)) envelopes_nil))⟩
  · intro c w
    rcases hb : c.request with _ | req
    · rcases ha : Any.assertMongoDB (c.Keys.lookup "mongo") with ⟨mongo, _ | _⟩ <;>
      simp only [Gettyio.deleteCliente, ha, hb, World.log, Context.JSON, Context.Bind,
      List.append_assoc, List.singleton_append, ne_eq, not_true_eq_false, reduceCtorEq,
      not_false_eq_true, ite_true, ite_false, Bool.not_true, Bool.not_false,
      Bool.false_eq_true] <;>
      first
      | exact ⟨_, rfl, envelopes_cons (errorReply_isEnvelope _ (by decide)) envelopes_nil⟩
      | exact ⟨_, rfl, envelopes_cons (errorReply_isEnvelope _ (by decide))
          (envelopes_cons (errorReply_isEnvelope _ (by decide)) envelopes_nil)⟩
    · rcases ha : Any.assertMongoDB (c.Keys.lookup "mongo") with ⟨mongo, _ | _⟩ <;>
      rcases hg : Gettyio.DeleteCliente mongo w.server req with p | ⟨srv, _ | e⟩ <;>
      simp only [Gettyio.deleteCliente, ha, hb, hg, World.log, Context.JSON, Context.Bind,
      List.append_assoc, List.singleton_append, ne_eq, not_true_eq_false, reduceCtorEq,
      not_false_eq_true, ite_true, ite_false, Bool.not_true, Bool.not_false,
      Bool.false_eq_true] <;>
      first
      | exact ⟨[], (List.append_nil _).symm, envelopes_nil⟩
      | exact ⟨_, rfl, envelopes_cons (errorReply_isEnvelope _ (by decide)) envelopes_nil⟩
      | exact ⟨_, rfl, envelopes_cons (successReply_isEnvelope _ _ (by decide)) envelopes_nil⟩
      | exact ⟨_, rfl, envelopes_cons (errorReply_isEnvelope _ (by decide))
          (envelopes_cons (successReply_isEnvelope _ _ (by decide)) envelopes_nil)⟩
      | exact ⟨_, rfl, envelopes_cons (errorReply_isEnvelope _ (by decide))
          (envelopes_cons (errorReply_isEnvelope _ (by decide))
            (envelopes_cons (successReply_isEnvelope _ _ (by decide)) envelopes_nil))⟩

/-! ### Missing handle -/

/-- The type assertion fails, and yields the nil pointer, exactly when the key
holds no `*MongoDB`. -/
theorem assertMongoDB_of_no_handle (v : Option Any) (h : ∀ p, v ≠ some (Any.ptrMongoDB p)) :
    Any.assertMongoDB v = (none, false) := by
  rcases v with _ | ⟨p | s⟩
  · rfl
  · exact absurd rfl (h p)
  · rfl

/-- C9: when the context holds no `*MongoDB` under the key "mongo", each handler
first writes a 400 response with a null body ("can't reach db" for GET, "can't
connect to db" for POST, PUT, DELETE) and goes on.  GET calls the list operation
on the nil handle, which panics.  POST, PUT and DELETE bind the body: a bind
failure gives the two responses 400 "can't connect to db", 400 "Incorrect data"
and a return; a bind success reaches the data-access call on the nil handle,
which panics. -/
theorem missing_handle_does_not_halt
    (c : Context Main.Customer) (w : World Main.Customer)
    (hk : ∀ p, c.Keys.lookup "mongo" ≠ some (Any.ptrMongoDB p)) :
    (Main.getCustomer c w =
        ⟨{ c with written := c.written ++ [errorReply "can't reach db"] },
          w.log "GetCustomer", some Panic.nilDereference⟩ ∧
      Main.GetCustomer none w.server = Except.error Panic.nilDereference) ∧
    (c.Bind = none →
      Main.postCustomer c w =
        ⟨{ c with written := c.written ++
            [errorReply "can't connect to db", errorReply "Incorrect data"] }, w, none⟩ ∧
      Main.putCustomer c w =
        ⟨{ c with written := c.written ++
            [errorReply "can't connect to db", errorReply "Incorrect data"] }, w, none⟩ ∧
      Main.deleteCustomer c w =
        ⟨{ c with written := c.written ++
            [errorReply "can't connect to db", errorReply "Incorrect data"] }, w, none⟩) ∧
    (∀ req, c.Bind = some req →
      (Main.postCustomer c w =
        ⟨{ c with written := c.written ++ [errorReply "can't connect to db"] },
          w.log "PostCustomer", some Panic.nilDereference⟩ ∧
       Main.PostCustomer none w.server req = Except.error Panic.nilDereference) ∧
      (Main.putCustomer c w =
        ⟨{ c with written := c.written ++ [errorReply "can't connect to db"] },
          w.log "PutCustomer", some Panic.nilDereference⟩ ∧
       Main.PutCustomer none w.server req = Except.error Panic.nilDereference) ∧
      (Main.deleteCustomer c w =
        ⟨{ c with written := c.written ++ [errorReply "can't connect to db"] },
          w.log "DeleteCustomer", some Panic.nilDereference⟩ ∧
       Main.DeleteCustomer none w.server req = Except.error Panic.nilDereference)) := by
  have ha := assertMongoDB_of_no_handle (c.Keys.lookup "mongo") hk
  refine ⟨⟨?_, rfl⟩, ?_, ?_⟩
  · simp [Main.getCustomer, ha, Main.GetCustomer, World.log, Context.JSON, errorReply]
  · intro hb
    have hb0 : c.request = none := hb
    refine ⟨?_, ?_, ?_⟩ <;>
      simp [Main.postCustomer, Main.putCustomer, Main.deleteCustomer, ha, hb0, Context.Bind,
        Context.JSON, errorReply]
  · intro req hb
    have hb0 : c.request = some req := hb
    refine ⟨⟨?_, rfl⟩, ⟨?_, rfl⟩, ⟨?_, rfl⟩⟩
    · simp [Main.postCustomer, ha, hb0, Main.PostCustomer, World.log, Context.Bind,
        Context.JSON, errorReply]
    · simp [Main.putCustomer, ha, hb0, Main.PutCustomer, World.log, Context.Bind,
        Context.JSON, errorReply]
    · simp [Main.deleteCustomer, ha, hb0, Main.DeleteCustomer, World.log, Context.Bind,
        Context.JSON, errorReply]

/-- Witness of C9: requests that reach the handlers with no key "mongo" in the
context, one whose body does not bind and one whose body binds. -/
theorem missing_handle_does_not_halt_witness :
    ((Main.getCustomer Main.ctxNoHandle Main.worldOne).c.written
        = [errorReply "can't reach db"] ∧
     (Main.getCustomer Main.ctxNoHandle Main.worldOne).panic = some Panic.nilDereference) ∧
    (Main.postCustomer Main.ctxNoHandle Main.worldOne).c.written
        = [errorReply "can't connect to db", errorReply "Incorrect data"] ∧
    ((Main.postCustomer Main.ctxNoHandleAna Main.worldOne).c.written
        = [errorReply "can't connect to db"] ∧
     (Main.postCustomer Main.ctxNoHandleAna Main.worldOne).panic
        = some Panic.nilDereference) :=
  ⟨⟨congrArg (fun r => r.c.written)
      (missing_handle_does_not_halt Main.ctxNoHandle Main.worldOne (fun _ h => Option.noConfusion h)).1.1,
    congrArg (fun r => r.panic)
      (missing_handle_does_not_halt Main.ctxNoHandle Main.worldOne (fun _ h => Option.noConfusion h)).1.1⟩,
   congrArg (fun r => r.c.written)
      ((missing_handle_does_not_halt Main.ctxNoHandle Main.worldOne (fun _ h => Option.noConfusion h)).2.1 rfl).1,
   ⟨congrArg (fun r => r.c.written)
      ((missing_handle_does_not_halt Main.ctxNoHandleAna Main.worldOne (fun _ h => Option.noConfusion h)).2.2
        ⟨[], "Ana", 30⟩ rfl).1.1,
    congrArg (fun r => r.panic)
      ((missing_handle_does_not_halt Main.ctxNoHandleAna Main.worldOne (fun _ h => Option.noConfusion h)).2.2
        ⟨[], "Ana", 30⟩ rfl).1.1⟩⟩

/-! ### Inserts, updates and removals -/

/-- Reading a collection just written gives what was written. -/
theorem coll_setColl {α : Type} (srv : mgo.Server α) (ns : String) (docs : List α) :
    (srv.setColl ns docs).coll ns = docs := by
  simp [mgo.Server.coll, mgo.Server.setColl, List.lookup]

/-- No document has the identifier: the search for it fails. -/
theorem any_id_eq_false {α : Type} [bson.Document α] (l : List α) (id : bson.ObjectId)
    (h : ∀ d ∈ l, bson.Document.id d ≠ id) :
    l.any (fun d => bson.Document.id d == id) = false := by
  rw [Bool.eq_false_iff]
  intro hany
  rcases List.any_eq_true.1 hany with ⟨d, hd, he⟩
  exact h d hd (by simpa using he)

/-- Calling `UpdateId` on an identifier that no document has: an error, and the server
is left as it was. -/
theorem updateId_unknown {α : Type} [bson.Document α] (srv : mgo.Server α) (ns : String)
    (id : bson.ObjectId) (doc : α) (hdoc : bson.Document.id doc = id)
    (h : ∀ d ∈ srv.coll ns, bson.Document.id d ≠ id) :
    ∃ e, mgo.UpdateId srv ns id doc = (srv, some e) ∧
      (srv.up = true → bson.ObjectId.Valid id = true → e = mgo.Error.ErrNotFound) := by
  have hany := any_id_eq_false (srv.coll ns) id h
  unfold mgo.UpdateId
  by_cases hup : srv.up = true
  · by_cases hv : bson.ObjectId.Valid id = true
    · exact ⟨mgo.Error.ErrNotFound, by simp [hup, hv, hdoc, hany], fun _ _ => rfl⟩
    · exact ⟨mgo.Error.invalidObjectId, by simp [hup, hv], fun _ h => absurd h hv⟩
  · exact ⟨mgo.Error.unreachable, by simp [hup], fun h => absurd h hup⟩

/-- Calling `RemoveId` on an identifier that no document has: an error, and the server
is left as it was. -/
theorem removeId_unknown {α : Type} [bson.Document α] (srv : mgo.Server α) (ns : String)
    (id : bson.ObjectId) (h : ∀ d ∈ srv.coll ns, bson.Document.id d ≠ id) :
    ∃ e, mgo.RemoveId srv ns id = (srv, some e) ∧
      (srv.up = true → bson.ObjectId.Valid id = true → e = mgo.Error.ErrNotFound) := by
  have hany := any_id_eq_false (srv.coll ns) id h
  unfold mgo.RemoveId
  by_cases hup : srv.up = true
  · by_cases hv : bson.ObjectId.Valid id = true
    · exact ⟨mgo.Error.ErrNotFound, by simp [hup, hv, hany], fun _ _ => rfl⟩
    · exact ⟨mgo.Error.invalidObjectId, by simp [hup, hv], fun _ h => absurd h hv⟩
  · exact ⟨mgo.Error.unreachable, by simp [hup], fun h => absurd h hup⟩

/-- C6, as stated, fails: POST of `{name:"Ana", age:30}` with the handle present
and a reachable, empty database.  The insert succeeds and the server stores the
customer under the identifier it assigns, but the body of the 200 response is
the bound record, whose identifier is empty. -/
theorem post_response_identifier_is_empty :
    Main.PostCustomer (some Main.handle) Main.worldEmpty.server ⟨[], "Ana", 30⟩
      = Except.ok
          (⟨[("gettyio.Customer", [⟨oidServer, "Ana", 30⟩])], true, oidServer⟩,
            none) ∧
    (Main.postCustomer Main.ctxAna Main.worldEmpty).c.written
      = [⟨200, [("message", Value.string "post data sucess"),
          ("body", Value.record ⟨[], "Ana", 30⟩)]⟩] :=
  ⟨rfl, rfl⟩

/-- C6, amended: for every Customer payload bound without an identifier, when
the insert succeeds `postCustomer` writes exactly one response, 200 "post data
sucess", whose body is the payload as bound: its name, its age and an empty
identifier.  The identifier assigned by the database is in the stored document
only. -/
theorem post_response_body_is_bound_record
    (c : Context Main.Customer) (w : World Main.Customer) (mongo : MongoDB)
    (req : Main.Customer) (srv : mgo.Server Main.Customer)
    (hk : c.Keys.lookup "mongo" = some (Any.ptrMongoDB (some mongo)))
    (hb : c.Bind = some req) (hid : req.Id = [])
    (hins : Main.PostCustomer (some mongo) w.server req = Except.ok (srv, none)) :
    (Main.postCustomer c w).c.written
      = c.written ++
          [successReply "post data sucess" (Value.record ⟨[], req.Name, req.Age⟩)] ∧
    (⟨w.server.newId, req.Name, req.Age⟩ : Main.Customer)
      ∈ srv.coll (mgo.fullName mongo.Database "Customer") := by
  have hb0 : c.request = some req := hb
  obtain ⟨id, name, age⟩ := req
  simp only at hid
  subst hid
  constructor
  · simp [Main.postCustomer, hk, Any.assertMongoDB, World.log, hins, hb0, Context.Bind,
      Context.JSON, successReply]
  · unfold Main.PostCustomer at hins
    rcases hs : mongo.Session with _ | s
    · simp [hs] at hins
    · by_cases hup : w.server.up = true
      · simp [hs, mgo.Insert, hup, bson.Document.id, bson.Document.setId] at hins
        rw [← hins, coll_setColl]
        simp
      · simp [hs, mgo.Insert, hup] at hins

/-- Witness of C6 (amended): POST of `{name:"Ana", age:30}` to an empty,
reachable database. -/
theorem post_response_body_is_bound_record_witness :
    (Main.postCustomer Main.ctxAna Main.worldEmpty).c.written
      = [successReply "post data sucess" (Value.record ⟨[], "Ana", 30⟩)] ∧
    (⟨oidServer, "Ana", 30⟩ : Main.Customer)
      ∈ mgo.Server.coll
          ⟨[("gettyio.Customer", [⟨oidServer, "Ana", 30⟩])], true, oidServer⟩
          "gettyio.Customer" :=
  post_response_body_is_bound_record Main.ctxAna Main.worldEmpty Main.handle ⟨[], "Ana", 30⟩
    ⟨[("gettyio.Customer", [⟨oidServer, "Ana", 30⟩])], true, oidServer⟩
    (by decide) rfl rfl rfl

/-- C7, as stated, fails: PUT and DELETE of a record whose identifier no stored
customer has, with the handle present and a reachable database holding one
customer.  Both data-access operations return `ErrNotFound`, and both handlers
write the 400 response before the 200 response. -/
theorem unknown_identifier_is_an_error :
    Main.PutCustomer (some Main.handle) Main.worldOne.server ⟨oidUnknown, "Bia", 40⟩
      = Except.ok (Main.worldOne.server, some mgo.Error.ErrNotFound) ∧
    Main.DeleteCustomer (some Main.handle) Main.worldOne.server ⟨oidUnknown, "Bia", 40⟩
      = Except.ok (Main.worldOne.server, some mgo.Error.ErrNotFound) ∧
    (Main.putCustomer Main.ctxUnknownId Main.worldOne).c.written
      = [⟨400, [("message", Value.string "error put to db"), ("body", Value.null)]⟩,
         ⟨200, [("message", Value.string "put data sucess"),
          ("body", Value.record ⟨oidUnknown, "Bia", 40⟩)]⟩] ∧
    (Main.deleteCustomer Main.ctxUnknownId Main.worldOne).c.written
      = [⟨400, [("message", Value.string "error delete to db"), ("body", Value.null)]⟩,
         ⟨200, [("message", Value.string "delete data sucess"),
          ("body", Value.record ⟨oidUnknown, "Bia", 40⟩)]⟩] :=
  ⟨rfl, rfl, rfl, rfl⟩

/-- C7, amended: for every collection state and every identifier that matches no
document in it, `PutCustomer` and `DeleteCustomer` called with a record carrying
that identifier leave the server, and so every existing record, unchanged, and
return an error, which is `ErrNotFound` when the server answers and the
identifier is exactly 12 bytes long.  The PUT and DELETE handlers write the 400 response
for that error and then the 200 response. -/
theorem unknown_identifier_changes_nothing_and_errors
    (c : Context Main.Customer) (w : World Main.Customer) (mongo : MongoDB)
    (s : mgo.Session) (req : Main.Customer)
    (hk : c.Keys.lookup "mongo" = some (Any.ptrMongoDB (some mongo)))
    (hb : c.Bind = some req) (hs : mongo.Session = some s)
    (hno : ∀ d ∈ w.server.coll (mgo.fullName mongo.Database "Customer"), d.Id ≠ req.Id) :
    (∃ e, Main.PutCustomer (some mongo) w.server req = Except.ok (w.server, some e) ∧
      (w.server.up = true → bson.ObjectId.Valid req.Id = true → e = mgo.Error.ErrNotFound) ∧
      Main.putCustomer c w =
        ⟨{ c with written := c.written ++ [errorReply "error put to db",
            successReply "put data sucess" (Value.record req)] },
          w.log "PutCustomer", none⟩) ∧
    (∃ e, Main.DeleteCustomer (some mongo) w.server req = Except.ok (w.server, some e) ∧
      (w.server.up = true → bson.ObjectId.Valid req.Id = true → e = mgo.Error.ErrNotFound) ∧
      Main.deleteCustomer c w =
        ⟨{ c with written := c.written ++ [errorReply "error delete to db",
            successReply "delete data sucess" (Value.record req)] },
          w.log "DeleteCustomer", none⟩) := by
  have hb0 : c.request = some req := hb
  constructor
  · obtain ⟨e, he, hnf⟩ :=
      updateId_unknown w.server (mgo.fullName mongo.Database "Customer") req.Id req rfl hno
    have hput : Main.PutCustomer (some mongo) w.server req = Except.ok (w.server, some e) := by
      simp [Main.PutCustomer, hs, he]
    refine ⟨e, hput, hnf, ?_⟩
    simp [Main.putCustomer, hk, Any.assertMongoDB, World.log, hput, hb0, Context.Bind,
      Context.JSON, successReply, errorReply]
  · obtain ⟨e, he, hnf⟩ :=
      removeId_unknown w.server (mgo.fullName mongo.Database "Customer") req.Id hno
    have hdel : Main.DeleteCustomer (some mongo) w.server req
        = Except.ok (w.server, some e) := by
      simp [Main.DeleteCustomer, hs, he]
    refine ⟨e, hdel, hnf, ?_⟩
    simp [Main.deleteCustomer, hk, Any.assertMongoDB, World.log, hdel, hb0, Context.Bind,
      Context.JSON, successReply, errorReply]

/-- Witness of C7 (amended): PUT and DELETE of an unknown identifier against a
database holding one customer. -/
theorem unknown_identifier_changes_nothing_and_errors_witness :
    (∃ e, Main.PutCustomer (some Main.handle) Main.worldOne.server ⟨oidUnknown, "Bia", 40⟩
        = Except.ok (Main.worldOne.server, some e) ∧
      (Main.worldOne.server.up = true → bson.ObjectId.Valid oidUnknown = true →
        e = mgo.Error.ErrNotFound) ∧
      Main.putCustomer Main.ctxUnknownId Main.worldOne =
        ⟨{ Main.ctxUnknownId with written := [errorReply "error put to db",
            successReply "put data sucess" (Value.record ⟨oidUnknown, "Bia", 40⟩)] },
          Main.worldOne.log "PutCustomer", none⟩) ∧
    (∃ e, Main.DeleteCustomer (some Main.handle) Main.worldOne.server
          ⟨oidUnknown, "Bia", 40⟩
        = Except.ok (Main.worldOne.server, some e) ∧
      (Main.worldOne.server.up = true → bson.ObjectId.Valid oidUnknown = true →
        e = mgo.Error.ErrNotFound) ∧
      Main.deleteCustomer Main.ctxUnknownId Main.worldOne =
        ⟨{ Main.ctxUnknownId with written := [errorReply "error delete to db",
            successReply "delete data sucess" (Value.record ⟨oidUnknown, "Bia", 40⟩)] },
          Main.worldOne.log "DeleteCustomer", none⟩) :=
  unknown_identifier_changes_nothing_and_errors Main.ctxUnknownId Main.worldOne Main.handle
    ⟨["localhost:27017"]⟩ ⟨oidUnknown, "Bia", 40⟩ (by decide) rfl rfl (by decide)

/-! ### Session middleware -/

/-- After `c.Set(key, value)` the key holds the value. -/
theorem lookup_Set {α : Type} (c : Context α) (key : String) (value : Any) :
    (c.Set key value).Keys.lookup key = some value := by
  simp [Context.Set, List.lookup]

/-- C8: with the connection info set, `MiddleDB` continues the handler chain, the
handle (carrying the new session) published under the context key "mongo", when
`DialWithInfo` succeeds, or, `Dial` being tried only after `DialWithInfo` failed,
when `Dial` succeeds.  When both fail it aborts: the key is not set, the handler
is not run and no response is written.  So the chain continues if and only if
one of the two dials succeeds. -/
theorem middleware_continues_iff_a_dial_succeeds {α : Type}
    (mongo : MongoDB) (info : mgo.DialInfo) (c : Context α) (w : World α)
    (hinfo : mongo.Info = some info) :
    (w.dialWithInfoOk = true → ∀ next : Handler α,
      MiddleDB mongo next c w =
        next (c.Set "mongo" (Any.ptrMongoDB (some { mongo with Session := some ⟨info.Addrs⟩ })))
          (w.log "mgo.DialWithInfo")) ∧
    (w.dialWithInfoOk = false → w.dialOk = true → ∀ next : Handler α,
      MiddleDB mongo next c w =
        next (c.Set "mongo" (Any.ptrMongoDB (some { mongo with Session := some ⟨[mongo.Host]⟩ })))
          ((w.log "mgo.DialWithInfo").log "mgo.Dial")) ∧
    (w.dialWithInfoOk = false → w.dialOk = false → ∀ next : Handler α,
      MiddleDB mongo next c w =
        ⟨{ c with aborted := true }, (w.log "mgo.DialWithInfo").log "mgo.Dial", none⟩) ∧
    ((∃ (m : MongoDB) (c' : Context α) (w' : World α),
        c'.Keys.lookup "mongo" = some (Any.ptrMongoDB (some m)) ∧ m.Session ≠ none ∧
        ∀ next : Handler α, MiddleDB mongo next c w = next c' w')
      ↔ (w.dialWithInfoOk = true ∨ w.dialOk = true)) := by
  have h1 : w.dialWithInfoOk = true → ∀ next : Handler α,
      MiddleDB mongo next c w =
        next (c.Set "mongo" (Any.ptrMongoDB (some { mongo with Session := some ⟨info.Addrs⟩ })))
          (w.log "mgo.DialWithInfo") := by
    intro h next
    simp [MiddleDB, MongoDB.SetSession, hinfo, mgo.DialWithInfo, h]
  have h2 : w.dialWithInfoOk = false → w.dialOk = true → ∀ next : Handler α,
      MiddleDB mongo next c w =
        next (c.Set "mongo" (Any.ptrMongoDB (some { mongo with Session := some ⟨[mongo.Host]⟩ })))
          ((w.log "mgo.DialWithInfo").log "mgo.Dial") := by
    intro h h' next
    have h'' : (w.log "mgo.DialWithInfo").dialOk = true := h'
    simp [MiddleDB, MongoDB.SetSession, hinfo, mgo.DialWithInfo, mgo.Dial, h, h'']
  have h3 : w.dialWithInfoOk = false → w.dialOk = false → ∀ next : Handler α,
      MiddleDB mongo next c w =
        ⟨{ c with aborted := true }, (w.log "mgo.DialWithInfo").log "mgo.Dial", none⟩ := by
    intro h h' next
    have h'' : (w.log "mgo.DialWithInfo").dialOk = false := h'
    simp [MiddleDB, MongoDB.SetSession, hinfo, mgo.DialWithInfo, mgo.Dial, h, h'',
      Context.Abort]
  refine ⟨h1, h2, h3, ?_, ?_⟩
  · rintro ⟨m, c', w', -, -, hrun⟩
    by_contra hnot
    have hA : w.dialWithInfoOk = false := by
      cases h : w.dialWithInfoOk
      · rfl
      · exact absurd (Or.inl h) hnot
    have hB : w.dialOk = false := by
      cases h : w.dialOk
      · rfl
      · exact absurd (Or.inr h) hnot
    have e1 := hrun (fun _ _ => ⟨c, w, none⟩)
    have e2 := hrun (fun _ _ => ⟨c, w, some Panic.nilDereference⟩)
    rw [h3 hA hB] at e1 e2
    have := congrArg Run.panic (e1.symm.trans e2)
    simp at this
  · intro hor
    cases hA : w.dialWithInfoOk
    · have hB : w.dialOk = true := by
        rcases hor with h | h
        · rw [hA] at h; cases h
        · exact h
      exact ⟨_, _, _, lookup_Set _ _ _, by simp, h2 hA hB⟩
    · exact ⟨_, _, _, lookup_Set _ _ _, by simp, h1 hA⟩

/-- Witness of C8: the handle of `SetupRouter` when only the fallback dial
succeeds, in front of the list handler. -/
theorem middleware_continues_iff_a_dial_succeeds_witness :
    MiddleDB Main.SetupRouter.mongo Main.getCustomer Main.ctxNoHandle
        ⟨false, true, Main.worldOne.server, []⟩ =
      Main.getCustomer
        (Main.ctxNoHandle.Set "mongo" (Any.ptrMongoDB
          (some { Main.SetupRouter.mongo with Session := some ⟨["localhost"]⟩ })))
        ⟨false, true, Main.worldOne.server, ["mgo.DialWithInfo", "mgo.Dial"]⟩ :=
  (middleware_continues_iff_a_dial_succeeds Main.SetupRouter.mongo
    ⟨["localhost:27017"], 60000000000, "gettyio"⟩ Main.ctxNoHandle
    ⟨false, true, Main.worldOne.server, []⟩ rfl).2.1 rfl rfl Main.getCustomer

/-! ### The two files -/

/-- C10: the handler layer of `go_gettyio.go` and that of `main.go` are
equivalent.  Take a Cliente request and a Customer request with the same handle
presence, corresponding bind results and corresponding responses already
written.  Whenever the data-access operation of the one file and that of the
other give corresponding results, the two handlers write the same sequence of
responses (same status codes, same messages, same body up to renaming `Idade`
to `Age`) and end the same way.  The two routers register the handlers under the
same methods, in the same order, behind the same middleware, on the path
`/cliente` in the one and `/customer` in the other. -/
theorem handler_layers_equivalent
    (cg : Context Gettyio.Cliente) (wg : World Gettyio.Cliente)
    (cm : Context Main.Customer) (wm : World Main.Customer)
    (hkeys : (Any.assertMongoDB (cg.Keys.lookup "mongo")).2
      = (Any.assertMongoDB (cm.Keys.lookup "mongo")).2)
    (hbind : cg.Bind.map Gettyio.Cliente.toCustomer = cm.Bind)
    (hw : cg.written.map (Response.map Gettyio.Cliente.toCustomer) = cm.written) :
    (Except.map (fun r => (r.1.map Gettyio.Cliente.toCustomer, r.2))
          (Gettyio.GetCliente (Any.assertMongoDB (cg.Keys.lookup "mongo")).1 wg.server)
        = Main.GetCustomer (Any.assertMongoDB (cm.Keys.lookup "mongo")).1 wm.server →
      Run.SameResponses (Gettyio.getCliente cg wg) (Main.getCustomer cm wm)) ∧
    ((∀ req, cg.Bind = some req →
        Except.map Prod.snd
          (Gettyio.PostCliente (Any.assertMongoDB (cg.Keys.lookup "mongo")).1 wg.server req)
        = Except.map Prod.snd
          (Main.PostCustomer (Any.assertMongoDB (cm.Keys.lookup "mongo")).1 wm.server
            req.toCustomer)) →
      Run.SameResponses (Gettyio.postCliente cg wg) (Main.postCustomer cm wm)) ∧
    ((∀ req, cg.Bind = some req →
        Except.map Prod.snd
          (Gettyio.PutCliente (Any.assertMongoDB (cg.Keys.lookup "mongo")).1 wg.server req)
        = Except.map Prod.snd
          (Main.PutCustomer (Any.assertMongoDB (cm.Keys.lookup "mongo")).1 wm.server
            req.toCustomer)) →
      Run.SameResponses (Gettyio.putCliente cg wg) (Main.putCustomer cm wm)) ∧
    ((∀ req, cg.Bind = some req →
        Except.map Prod.snd
          (Gettyio.DeleteCliente (Any.assertMongoDB (cg.Keys.lookup "mongo")).1 wg.server req)
        = Except.map Prod.snd
          (Main.DeleteCustomer (Any.assertMongoDB (cm.Keys.lookup "mongo")).1 wm.server
            req.toCustomer)) →
      Run.SameResponses (Gettyio.deleteCliente cg wg) (Main.deleteCustomer cm wm)) ∧
    (Gettyio.SetupRouter.routes.map (fun r => r.method)
        = Main.SetupRouter.routes.map (fun r => r.method) ∧
     Gettyio.SetupRouter.routes.map (fun r => r.path)
        = ["/cliente", "/cliente", "/cliente", "/cliente"] ∧
     Main.SetupRouter.routes.map (fun r => r.path)
        = ["/customer", "/customer", "/customer", "/customer"] ∧
     Gettyio.SetupRouter.routes.map (fun r => r.handler)
        = [Gettyio.getCliente, Gettyio.postCliente, Gettyio.putCliente,
            Gettyio.deleteCliente] ∧
     Main.SetupRouter.routes.map (fun r => r.handler)
        = [Main.getCustomer, Main.postCustomer, Main.putCustomer, Main.deleteCustomer] ∧
     Gettyio.SetupRouter.middleware = Main.SetupRouter.middleware) := by
  rcases hag : Any.assertMongoDB (cg.Keys.lookup "mongo") with ⟨mg, okg⟩
  rcases ham : Any.assertMongoDB (cm.Keys.lookup "mongo") with ⟨mm, okm⟩
  rw [hag, ham] at hkeys
  simp only at hkeys
  subst hkeys
  have hbind0 : cg.request.map Gettyio.Cliente.toCustomer = cm.request := hbind
  refine ⟨?_, ?_, ?_, ?_, ⟨rfl, rfl, rfl, rfl, rfl, rfl⟩⟩
  · intro hget
    simp only at hget
    rcases hg : Gettyio.GetCliente mg wg.server with p | ⟨l, _ | e⟩ <;>
      rw [hg] at hget <;> simp only [Except.map] at hget <;>
      cases okg <;>
      simp [Run.SameResponses, Gettyio.getCliente, Main.getCustomer, hag, ham, hg, ← hget,
        ← hw, World.log, Context.JSON, Response.map, Value.map]
  · intro hop
    simp only at hop
    rcases hb : cg.request with _ | req
    · have hbm : cm.request = none := by rw [← hbind0, hb]; rfl
      cases okg <;>
        simp [Run.SameResponses, Gettyio.postCliente, Main.postCustomer, hag, ham, hb, hbm, ← hw,
          Context.Bind, Context.JSON, Response.map, Value.map]
    · have hbm : cm.request = some req.toCustomer := by rw [← hbind0, hb]; rfl
      have hrel := hop req hb
      rcases hg : Gettyio.PostCliente mg wg.server req with p | ⟨srv, _ | e⟩ <;>
        rcases hm : Main.PostCustomer mm wm.server req.toCustomer with p' | ⟨srv', _ | e'⟩ <;>
        rw [hg, hm] at hrel <;> simp [Except.map] at hrel <;>
        cases okg <;>
        simp [Run.SameResponses, Gettyio.postCliente, Main.postCustomer, hag, ham, hb, hbm, hg, hm,
          hrel, ← hw, World.log, Context.Bind, Context.JSON, Response.map, Value.map]
  · intro hop
    simp only at hop
    rcases hb : cg.request with _ | req
    · have hbm : cm.request = none := by rw [← hbind0, hb]; rfl
      cases okg <;>
        simp [Run.SameResponses, Gettyio.putCliente, Main.putCustomer, hag, ham, hb, hbm, ← hw,
          Context.Bind, Context.JSON, Response.map, Value.map]
    · have hbm : cm.request = some req.toCustomer := by rw [← hbind0, hb]; rfl
      have hrel := hop req hb
      rcases hg : Gettyio.PutCliente mg wg.server req with p | ⟨srv, _ | e⟩ <;>
        rcases hm : Main.PutCustomer mm wm.server req.toCustomer with p' | ⟨srv', _ | e'⟩ <;>
        rw [hg, hm] at hrel <;> simp [Except.map] at hrel <;>
        cases okg <;>
        simp [Run.SameResponses, Gettyio.putCliente, Main.putCustomer, hag, ham, hb, hbm, hg, hm,
          hrel, ← hw, World.log, Context.Bind, Context.JSON, Response.map, Value.map]
  · intro hop
    simp only at hop
    rcases hb : cg.request with _ | req
    · have hbm : cm.request = none := by rw [← hbind0, hb]; rfl
      cases okg <;>
        simp [Run.SameResponses, Gettyio.deleteCliente, Main.deleteCustomer, hag, ham, hb, hbm, ← hw,
          Context.Bind, Context.JSON, Response.map, Value.map]
    · have hbm : cm.request = some req.toCustomer := by rw [← hbind0, hb]; rfl
      have hrel := hop req hb
      rcases hg : Gettyio.DeleteCliente mg wg.server req with p | ⟨srv, _ | e⟩ <;>
        rcases hm : Main.DeleteCustomer mm wm.server req.toCustomer with p' | ⟨srv', _ | e'⟩ <;>
        rw [hg, hm] at hrel <;> simp [Except.map] at hrel <;>
        cases okg <;>
        simp [Run.SameResponses, Gettyio.deleteCliente, Main.deleteCustomer, hag, ham, hb, hbm, hg, hm,
          hrel, ← hw, World.log, Context.Bind, Context.JSON, Response.map, Value.map]

/-- Witness of C10: the same four requests sent to the Cliente service and to the
Customer service, each with a database holding the one corresponding record. -/
theorem handler_layers_equivalent_witness :
    (Run.SameResponses (Gettyio.getCliente Gettyio.ctxAna Gettyio.worldOne)
        (Main.getCustomer Main.ctxAna Main.worldOne) ∧
     Run.SameResponses (Gettyio.postCliente Gettyio.ctxAna Gettyio.worldOne)
        (Main.postCustomer Main.ctxAna Main.worldOne)) ∧
    (Run.SameResponses (Gettyio.putCliente Gettyio.ctxAnaId Gettyio.worldOne)
        (Main.putCustomer Main.ctxAnaId Main.worldOne) ∧
     Run.SameResponses (Gettyio.deleteCliente Gettyio.ctxAnaId Gettyio.worldOne)
        (Main.deleteCustomer Main.ctxAnaId Main.worldOne)) :=
  ⟨⟨(handler_layers_equivalent Gettyio.ctxAna Gettyio.worldOne Main.ctxAna Main.worldOne
        rfl rfl rfl).1 rfl,
    (handler_layers_equivalent Gettyio.ctxAna Gettyio.worldOne Main.ctxAna Main.worldOne
        rfl rfl rfl).2.1 (fun _ h => Option.some.inj h ▸ rfl)⟩,
   ⟨(handler_layers_equivalent Gettyio.ctxAnaId Gettyio.worldOne Main.ctxAnaId Main.worldOne
        rfl rfl rfl).2.2.1 (fun _ h => Option.some.inj h ▸ rfl),
    (handler_layers_equivalent Gettyio.ctxAnaId Gettyio.worldOne Main.ctxAnaId Main.worldOne
        rfl rfl rfl).2.2.2.1 (fun _ h => Option.some.inj h ▸ rfl)⟩⟩
